import Mathlib

/-!
Shallow embedding of `nnunetv2/model_sharing/onnx_export.py` (function
`export_onnx_model`) and proofs about it.

External effects (filesystem reads, the torch/onnx runtimes, random inputs)
are supplied by an `Env` record of pure functions; the run threads an
explicit filesystem of output directories and an event trace, and returns
`none` on normal termination or `some e` for an uncaught Python exception.
-/

namespace OnnxExport

/-- JSON values as produced by `json.dump`. Objects are ordered association
lists, matching Python dict insertion order. -/
inductive Json where
  | str : String → Json
  | num : Int → Json
  | arr : List Json → Json
  | obj : List (String × Json) → Json
deriving Inhabited

/-- Top-level keys of a JSON object (empty for non-objects). -/
def Json.keys : Json → List String
  | .obj l => l.map Prod.fst
  | _ => []

/-- Field lookup in a JSON object. -/
def Json.get : Json → String → Option Json
  | .obj l, k => (l.find? (fun p => p.1 == k)).map Prod.snd
  | _, _ => none

/-- A fold identifier: `folds` entries are ints or strings (such as "all"). -/
inductive FoldVal where
  | num : Nat → FoldVal
  | str : String → FoldVal
deriving Repr, DecidableEq

/-- How the fold appears in the directory name `fold_{fold}`. -/
def FoldVal.render : FoldVal → String
  | .num n => toString n
  | .str s => s

/-- How the fold is serialized into the metadata JSON. -/
def FoldVal.toJson : FoldVal → Json
  | .num n => Json.num n
  | .str s => Json.str s

/-- The fields of `predictor.configuration_manager` read by the export.
`patch_size` is kept structured because it determines tensor shapes; the
other fields are serialized verbatim into the metadata. -/
structure ConfigurationManager where
  patch_size : List Nat
  spacing : Json
  normalization_schemes : Json
  UNet_class_name : Json
  UNet_base_num_features : Json
  unet_max_num_features : Json
  conv_kernel_sizes : Json
  pool_op_kernel_sizes : Json
  num_pool_per_axis : Json
deriving Inhabited

/-- The fields of `dataset.json` read by the export: `channel_names` maps
channel key to channel name, `labels` maps class name to label value. -/
structure DatasetJson where
  channel_names : List (String × String)
  labels : List (String × Int)
deriving Repr, DecidableEq, Inhabited

/-- The single field of `plans.json` read by the export. -/
structure PlansJson where
  foreground_intensity_properties_per_channel : List (String × Json)
deriving Inhabited

/-- An abstract tensor: a shape plus an opaque content identifier. -/
structure Tensor where
  shape : List Nat
  content : Nat
deriving Repr, DecidableEq, Inhabited

/-- Uncaught Python exceptions the run can end with. -/
inductive Err where
  | valueError : String → Err
  | runtimeError : String → Err
  | fileNotFoundError : String → Err
  | keyError : String → Err
  | onnxCheckError : String → Err
deriving Repr, DecidableEq

/-- Whether an error is a `ValueError`. -/
def Err.isValue : Err → Bool
  | .valueError _ => true
  | _ => false

/-- Observable steps of the run, in program order. -/
inductive Event where
  | printMsg : String → Event
  | resolveOutputFolder : String → String → Event
  | readDatasetJson : String → Event
  | readPlansJson : String → Event
  | predictorInit : String → String → Event
  | loadStateDict : FoldVal → Nat → Event
  | mkdirEvent : String → Event
  | runTorch : Nat → Tensor → Event
  | onnxExportCall : String → Tensor → Event
  | onnxLoadCall : String → Event
  | checkModelCall : String → Event
  | createSession : String → Event
  | ortRunCall : String → Tensor → Event
  | compareOutputs : Bool → Event
  | writeMetadata : String → Json → Event

/-- The output-side filesystem: existing directories with their entries.
Absence of a directory from the list models a non-existing directory. -/
structure FS where
  dirs : List (String × List String)
deriving Repr, DecidableEq, Inhabited

def FS.lookup (fs : FS) (d : String) : Option (List String) :=
  (fs.dirs.find? (fun p => p.1 == d)).map Prod.snd

def FS.mkdir (fs : FS) (d : String) : FS :=
  ⟨fs.dirs ++ [(d, [])]⟩

/-- Writing a file into a directory (overwriting keeps one entry). -/
def FS.addFile (fs : FS) (d file : String) : FS :=
  ⟨fs.dirs.map (fun p =>
    if p.1 == d then (p.1, if file ∈ p.2 then p.2 else p.2 ++ [file]) else p)⟩

/-- Mutable state of the run: the filesystem and the event trace so far. -/
structure St where
  fs : FS
  trace : List Event
deriving Inhabited

def St.emit (st : St) (e : Event) : St := ⟨st.fs, st.trace ++ [e]⟩

/-- What `predictor.initialize_from_trained_model_folder` yields: one
parameter set per loaded fold, and the configuration manager. -/
structure PredictorData where
  list_of_parameters : List Nat
  configuration_manager : ConfigurationManager
deriving Inhabited

/-- The external world: dataset-name conversion, trained-model folders and
their JSON files, predictor loading, the torch network, the onnx runtime,
random input generation, and the initial output filesystem.  The fallible
callees carry their own errors: `convertDatasetName` models
`maybe_convert_to_dataset_name`, which raises `ValueError` for a string
that neither starts with Dataset nor parses as an integer;
`readDataset`/`readPlans` model `load_json`, which raises
`FileNotFoundError` when the file is missing and `json.JSONDecodeError`
(a `ValueError` subclass) when the file is malformed. -/
structure Env where
  convertDatasetName : String → Except Err String
  getOutputFolder : String → String → String → String → String
  isdir : String → Bool
  readDataset : String → Except Err DatasetJson
  readPlans : String → Except Err PlansJson
  predictorData : String → String → PredictorData
  rand : List Nat → Nat
  runNetwork : Nat → Tensor → Tensor
  onnxCheckOk : String → Bool
  ortRun : String → Tensor → Tensor
  allclose : Tensor → Tensor → Bool
  initFS : FS

/-- The arguments of `export_onnx_model`. -/
structure Args where
  dataset_name_or_id : String
  output_dir : String
  configurations : List String
  batch_size : Int
  trainer : String
  plans_identifier : String
  folds : List FoldVal
  strict : Bool
  save_checkpoints : List String
  output_names : Option (List String)
  verbose : Bool
deriving Repr, Inhabited

/-- The state of the `output_names` iterable across configurations: an
explicit tuple restarts at each `zip`, while the default generator keeps
only its remaining items. -/
inductive NamesSource where
  | explicitNames : List String → NamesSource
  | generated : List String → NamesSource
deriving Repr, DecidableEq

/-- The default output name: `checkpoint[:-4]` plus `.onnx`. -/
def defaultName (checkpoint : String) : String :=
  (checkpoint.take (checkpoint.length - 4)) ++ ".onnx"

/-- Initialisation of `output_names`: a missing or empty argument is
replaced by the generator over `save_checkpoints`. -/
def initialNames (output_names : Option (List String))
    (save_checkpoints : List String) : NamesSource :=
  match output_names with
  | none => .generated (save_checkpoints.map defaultName)
  | some l =>
    if l.isEmpty then .generated (save_checkpoints.map defaultName)
    else .explicitNames l

/-- Semantics of `zip(save_checkpoints, output_names)`: a tuple is
re-iterated from the start and left unchanged; a generator yields its
remaining items and is advanced past every item the zip pulled. -/
def NamesSource.zipCheckpoints (ns : NamesSource) (ckpts : List String) :
    List (String × String) × NamesSource :=
  match ns with
  | .explicitNames l => (ckpts.zip l, .explicitNames l)
  | .generated rem => (ckpts.zip rem, .generated (rem.drop ckpts.length))

def joinPath (a b : String) : String := a ++ "/" ++ b

/-- The path `output_dir / c / f"fold_{fold}"`. -/
def foldOutputDir (output_dir c : String) (fold : FoldVal) : String :=
  joinPath (joinPath output_dir c) ("fold_" ++ fold.render)

/-- Shape of the random input tensor fed to the network. -/
def inputShape (use_dynamic_axes : Bool) (batch_size : Int)
    (config : ConfigurationManager) : List Nat :=
  if use_dynamic_axes then 1 :: 1 :: config.patch_size
  else batch_size.toNat :: 1 :: config.patch_size

/-- The random input tensor `torch.rand((batch, 1, *config.patch_size))`. -/
def mkInput (env : Env) (use_dynamic_axes : Bool) (batch_size : Int)
    (config : ConfigurationManager) : Tensor :=
  ⟨inputShape use_dynamic_axes batch_size config,
   env.rand (inputShape use_dynamic_axes batch_size config)⟩

/-- One entry of the `channels` dict: dict access into the foreground
intensity properties raises `KeyError` on a missing channel key. -/
def channelEntry (fip : List (String × Json)) (k v : String) :
    Except Err (String × Json) :=
  match (fip.find? (fun p => p.1 == k)).map Prod.snd with
  | none => .error (.keyError k)
  | some props =>
    .ok (k, Json.obj [("name", Json.str v), ("foreground_properties", props)])

/-- The `channels` dict comprehension: stops at the first `KeyError`. -/
def mapChannels (fip : List (String × Json)) :
    List (String × String) → Except Err (List (String × Json))
  | [] => .ok []
  | p :: rest =>
    match channelEntry fip p.1 p.2 with
    | .error e => .error e
    | .ok q =>
      match mapChannels fip rest with
      | .error e => .error e
      | .ok qs => .ok (q :: qs)

/-- The `config_dict` serialized into `config.json`. -/
def buildConfigDict (c : String) (fold : FoldVal) (batch_size : Int)
    (use_dynamic_axes : Bool) (config : ConfigurationManager)
    (dataset_json : DatasetJson) (fip : List (String × Json))
    (dataset_name : String) : Except Err Json :=
  match mapChannels fip dataset_json.channel_names with
  | .error e => .error e
  | .ok channels =>
    .ok (Json.obj [
      ("configuration", Json.str c),
      ("fold", fold.toJson),
      ("model_parameters", Json.obj [
        ("batch_size",
          if use_dynamic_axes then Json.str "dynamic" else Json.num batch_size),
        ("patch_size", Json.arr (config.patch_size.map (fun n => Json.num n))),
        ("spacing", config.spacing),
        ("normalization_schemes", config.normalization_schemes),
        ("UNet_class_name", config.UNet_class_name),
        ("UNet_base_num_features", config.UNet_base_num_features),
        ("unet_max_num_features", config.unet_max_num_features),
        ("conv_kernel_sizes", config.conv_kernel_sizes),
        ("pool_op_kernel_sizes", config.pool_op_kernel_sizes),
        ("num_pool_per_axis", config.num_pool_per_axis)]),
      ("dataset_parameters", Json.obj [
        ("dataset_name", Json.str dataset_name),
        ("num_channels", Json.num dataset_json.channel_names.length),
        ("channels", Json.obj channels),
        ("num_classes", Json.num dataset_json.labels.length),
        ("class_names", Json.obj (dataset_json.labels.map
          (fun p => (toString p.2, Json.str p.1))))])])

/-- The per-fold pipeline after the output directory is ready: random
input, torch forward pass, onnx export, reload, checker, inference session,
comparison with printed warning on mismatch, and the metadata write (the
file is created by `open` before the dict is built, so a `KeyError` leaves
an empty `config.json` behind). -/
def exportAndVerify (env : Env) (batch_size : Int) (use_dynamic_axes : Bool)
    (dataset_name : String) (config : ConfigurationManager)
    (dataset_json : DatasetJson) (fip : List (String × Json))
    (c : String) (output_name : String) (fold : FoldVal) (params : Nat)
    (curr_output_dir : String) (st : St) : St × Option Err :=
  let rand_input := mkInput env use_dynamic_axes batch_size config
  let torch_output := env.runNetwork params rand_input
  let st := st.emit (.runTorch params rand_input)
  let artifact := joinPath curr_output_dir output_name
  let st : St := ⟨st.fs.addFile curr_output_dir output_name,
    st.trace ++ [.onnxExportCall artifact rand_input]⟩
  let st := st.emit (.onnxLoadCall artifact)
  if env.onnxCheckOk artifact = false then
    (st, some (.onnxCheckError artifact))
  else
    let st := st.emit (.checkModelCall artifact)
    let st := st.emit (.createSession artifact)
    let ort_out := env.ortRun artifact rand_input
    let st := st.emit (.ortRunCall artifact rand_input)
    let ok := env.allclose torch_output ort_out
    let st := st.emit (.compareOutputs ok)
    let st := if ok then st else
      (st.emit (.printMsg "WARN: Differences found between torch and onnx")).emit
        (.printMsg "Export will continue, but please verify that your pipeline matches the original.")
    let st := st.emit (.printMsg ("Exported " ++ artifact))
    let st : St := ⟨st.fs.addFile curr_output_dir "config.json", st.trace⟩
    match buildConfigDict c fold batch_size use_dynamic_axes config
        dataset_json fip dataset_name with
    | .error e => (st, some e)
    | .ok j =>
      (st.emit (.writeMetadata (joinPath curr_output_dir "config.json") j), none)

/-- One iteration of `for fold, params in zip(folds, list_of_parameters)`:
load the weights of the fold, prepare the output directory (`RuntimeError` when
it exists and is non-empty), then export and verify. -/
def processFold (env : Env) (output_dir : String) (batch_size : Int)
    (use_dynamic_axes : Bool) (dataset_name : String)
    (config : ConfigurationManager) (dataset_json : DatasetJson)
    (fip : List (String × Json)) (c : String) (output_name : String)
    (fold : FoldVal) (params : Nat) (st : St) : St × Option Err :=
  let st := st.emit (.loadStateDict fold params)
  let curr_output_dir := foldOutputDir output_dir c fold
  match st.fs.lookup curr_output_dir with
  | none =>
    exportAndVerify env batch_size use_dynamic_axes dataset_name config
      dataset_json fip c output_name fold params curr_output_dir
      ⟨st.fs.mkdir curr_output_dir, st.trace ++ [.mkdirEvent curr_output_dir]⟩
  | some entries =>
    if 0 < entries.length then
      (st, some (.runtimeError
        ("Output directory " ++ curr_output_dir ++ " is not empty")))
    else
      exportAndVerify env batch_size use_dynamic_axes dataset_name config
        dataset_json fip c output_name fold params curr_output_dir st

/-- The fold loop; an uncaught exception aborts the whole run. -/
def foldLoop (env : Env) (output_dir : String) (batch_size : Int)
    (use_dynamic_axes : Bool) (dataset_name : String)
    (config : ConfigurationManager) (dataset_json : DatasetJson)
    (fip : List (String × Json)) (c : String) (output_name : String) :
    List (FoldVal × Nat) → St → St × Option Err
  | [], st => (st, none)
  | (fold, params) :: rest, st =>
    match processFold env output_dir batch_size use_dynamic_axes dataset_name
        config dataset_json fip c output_name fold params st with
    | (st1, some e) => (st1, some e)
    | (st1, none) =>
      foldLoop env output_dir batch_size use_dynamic_axes dataset_name config
        dataset_json fip c output_name rest st1

/-- One iteration of `for checkpoint_name, output_name in zip(...)`. -/
def processCheckpoint (env : Env) (output_dir : String) (batch_size : Int)
    (use_dynamic_axes : Bool) (dataset_name : String)
    (dataset_json : DatasetJson) (fip : List (String × Json)) (c : String)
    (trainer_output_dir : String) (folds : List FoldVal)
    (checkpoint_name output_name : String) (st : St) : St × Option Err :=
  let st := st.emit (.predictorInit trainer_output_dir checkpoint_name)
  let pd := env.predictorData trainer_output_dir checkpoint_name
  foldLoop env output_dir batch_size use_dynamic_axes dataset_name
    pd.configuration_manager dataset_json fip c output_name
    (folds.zip pd.list_of_parameters) st

/-- The checkpoint loop over the pairs the zip produced. -/
def checkpointLoop (env : Env) (output_dir : String) (batch_size : Int)
    (use_dynamic_axes : Bool) (dataset_name : String)
    (dataset_json : DatasetJson) (fip : List (String × Json)) (c : String)
    (trainer_output_dir : String) (folds : List FoldVal) :
    List (String × String) → St → St × Option Err
  | [], st => (st, none)
  | (ckpt, oname) :: rest, st =>
    match processCheckpoint env output_dir batch_size use_dynamic_axes
        dataset_name dataset_json fip c trainer_output_dir folds ckpt oname
        st with
    | (st1, some e) => (st1, some e)
    | (st1, none) =>
      checkpointLoop env output_dir batch_size use_dynamic_axes dataset_name
        dataset_json fip c trainer_output_dir folds rest st1

/-- One iteration of `for c in configurations`. Faithful to the source
order: `dataset.json` and `plans.json` are read (lines 50 and 54) BEFORE
the `isdir` check (line 57), so a failing `load_json` (missing file, or a
decode error on malformed JSON) aborts before the strict/skip branch
runs. -/
def processConfiguration (env : Env) (a : Args) (use_dynamic_axes : Bool)
    (dataset_name : String) (c : String) (ns : NamesSource) (st : St) :
    St × NamesSource × Option Err :=
  let st := st.emit (.printMsg ("Configuration " ++ c))
  let dir := env.getOutputFolder dataset_name a.trainer a.plans_identifier c
  let st := st.emit (.resolveOutputFolder c dir)
  match env.readDataset dir with
  | .error e => (st, ns, some e)
  | .ok dataset_json =>
    let st := st.emit (.readDatasetJson (joinPath dir "dataset.json"))
    match env.readPlans dir with
    | .error e => (st, ns, some e)
    | .ok plans =>
      let st := st.emit (.readPlansJson (joinPath dir "plans.json"))
      let fip := plans.foreground_intensity_properties_per_channel
      if env.isdir dir = false then
        if a.strict then
          (st, ns, some (.runtimeError
            (dataset_name ++ " is missing the trained model of configuration "
              ++ c)))
        else
          (st.emit (.printMsg
            ("Skipping configuration " ++ c ++ ", does not exist")), ns, none)
      else
        let zc := ns.zipCheckpoints a.save_checkpoints
        let r := checkpointLoop env a.output_dir a.batch_size use_dynamic_axes
          dataset_name dataset_json fip c dir a.folds zc.1 st
        (r.1, zc.2, r.2)

/-- The configuration loop, threading the names source. -/
def configLoop (env : Env) (a : Args) (use_dynamic_axes : Bool)
    (dataset_name : String) :
    List String → NamesSource → St → St × Option Err
  | [], _, st => (st, none)
  | c :: rest, ns, st =>
    match processConfiguration env a use_dynamic_axes dataset_name c ns st with
    | (st1, _, some e) => (st1, some e)
    | (st1, ns1, none) =>
      configLoop env a use_dynamic_axes dataset_name rest ns1 st1

/-- The whole `export_onnx_model`: names-source setup, `batch_size`
validation, dataset-name resolution (which itself can raise, line 44),
then the configuration loop. -/
def export_onnx_model (env : Env) (a : Args) : St × Option Err :=
  let ns := initialNames a.output_names a.save_checkpoints
  if a.batch_size < 0 then
    (⟨env.initFS, []⟩, some (.valueError "batch_size must be non-negative"))
  else
    let use_dynamic_axes := a.batch_size == 0
    match env.convertDatasetName a.dataset_name_or_id with
    | .error e => (⟨env.initFS, []⟩, some e)
    | .ok dataset_name =>
      configLoop env a use_dynamic_axes dataset_name a.configurations ns
        ⟨env.initFS, []⟩

/-- The documented shape of the metadata JSON: the top level holds the
configuration, the fold and the two parameter groups; `model_parameters`
holds batch size, patch size, spacing, normalization schemes and the
network architecture fields; `dataset_parameters` holds the dataset name,
channel metadata (per-channel name and foreground intensity properties)
and class metadata (count and names). -/
def metadataKeysOK (j : Json) : Bool :=
  (j.keys == ["configuration", "fold", "model_parameters",
    "dataset_parameters"])
  && (match j.get "model_parameters" with
      | some m => m.keys == ["batch_size", "patch_size", "spacing",
          "normalization_schemes", "UNet_class_name",
          "UNet_base_num_features", "unet_max_num_features",
          "conv_kernel_sizes", "pool_op_kernel_sizes", "num_pool_per_axis"]
      | none => false)
  && (match j.get "dataset_parameters" with
      | some d =>
        (d.keys == ["dataset_name", "num_channels", "channels",
          "num_classes", "class_names"])
        && (match d.get "channels" with
            | some (Json.obj chans) =>
              chans.all (fun p => p.2.keys == ["name",
                "foreground_properties"])
            | _ => false)
      | none => false)

/-- What the per-fold pipeline is allowed to write: artifacts go to the
fold directory under the requested output name, and the metadata file is
the file `config.json` of the fold directory with the documented keys; all other
events carry no writes. -/
def foldWriteEvent (curr_output_dir output_name : String) (e : Event) :
    Prop :=
  match e with
  | .onnxExportCall p _ => p = joinPath curr_output_dir output_name
  | .writeMetadata p j =>
    p = joinPath curr_output_dir "config.json" ∧ metadataKeysOK j = true
  | _ => True

/-- Events that perform no write of an artifact or metadata file. -/
def writeFreeEvent (e : Event) : Prop :=
  match e with
  | .onnxExportCall _ _ => False
  | .writeMetadata _ _ => False
  | _ => True

/-! Concrete fixtures used to instantiate the theorems. -/

def testConfigManager : ConfigurationManager :=
  { patch_size := [2]
    spacing := Json.arr [Json.num 1]
    normalization_schemes := Json.arr [Json.str "ZScoreNormalization"]
    UNet_class_name := Json.str "PlainConvUNet"
    UNet_base_num_features := Json.num 32
    unet_max_num_features := Json.num 320
    conv_kernel_sizes := Json.arr [Json.arr [Json.num 3]]
    pool_op_kernel_sizes := Json.arr [Json.arr [Json.num 2]]
    num_pool_per_axis := Json.arr [Json.num 5] }

def testDatasetJson : DatasetJson :=
  { channel_names := [("0", "CT")]
    labels := [("background", 0), ("tumor", 1)] }

def testPlans : PlansJson :=
  { foreground_intensity_properties_per_channel := [("0", Json.num 5)] }

/-- A healthy world: every trained-model folder present, predictor loads one
fold, the onnx checker passes, and torch and onnxruntime outputs agree. -/
def testEnv : Env :=
  { convertDatasetName := fun _ => .ok "Dataset001_Test"
    getOutputFolder := fun _ _ _ c => "results/" ++ c
    isdir := fun _ => true
    readDataset := fun _ => .ok testDatasetJson
    readPlans := fun _ => .ok testPlans
    predictorData := fun _ _ => ⟨[7], testConfigManager⟩
    rand := fun _ => 3
    runNetwork := fun p t => ⟨t.shape, p + t.content⟩
    onnxCheckOk := fun _ => true
    ortRun := fun _ t => ⟨t.shape, 10⟩
    allclose := fun a b => a.content == b.content
    initFS := ⟨[]⟩ }

def testArgs : Args :=
  { dataset_name_or_id := "1"
    output_dir := "out"
    configurations := ["2d"]
    batch_size := 0
    trainer := "nnUNetTrainer"
    plans_identifier := "nnUNetPlans"
    folds := [FoldVal.num 0]
    strict := true
    save_checkpoints := ["checkpoint_final.pth"]
    output_names := none
    verbose := false }

/-- A world in which no trained-model folder exists: `isdir` is false and
opening the JSON files inside the folders raises `FileNotFoundError`. -/
def envMissingDir : Env :=
  { testEnv with
    readDataset := fun d => .error (.fileNotFoundError
      (joinPath d "dataset.json"))
    readPlans := fun d => .error (.fileNotFoundError
      (joinPath d "plans.json"))
    isdir := fun _ => false }

/-- Two configurations requested, `strict := false`. -/
def argsSkip : Args :=
  { testArgs with configurations := ["2d", "3d_lowres"], strict := false }

/-- Two configurations requested with default `output_names`. -/
def argsTwoConfigs : Args :=
  { testArgs with configurations := ["2d", "3d_fullres"] }

/-- A world identical to `testEnv` except that the reloaded onnx model
disagrees numerically with the torch model. -/
def envMismatch : Env :=
  { testEnv with ortRun := fun _ t => ⟨t.shape, 11⟩ }

def argsNegBatch : Args := { testArgs with batch_size := -1 }

/-- A world where the dataset-name conversion fails on the id
`not_a_dataset`: the string neither starts with Dataset nor parses as an
integer, so `maybe_convert_to_dataset_name` (line 44, outside `src/`)
raises a `ValueError`. -/
def envBadName : Env :=
  { testEnv with convertDatasetName := fun s =>
      if s = "not_a_dataset" then
        Except.error (Err.valueError
          ("Could not convert " ++ s ++ " to a dataset name"))
      else Except.ok s }

def argsBadName : Args :=
  { testArgs with dataset_name_or_id := "not_a_dataset" }

/-- A pre-existing non-empty fold output directory. -/
def stNonempty : St := ⟨⟨[("out/2d/fold_0", ["old.txt"])]⟩, []⟩

/-- A freshly created, still empty fold output directory. -/
def stDirReady : St := ⟨⟨[("out/2d/fold_0", [])]⟩, []⟩

/-- The metadata the fixtures produce for configuration `2d`, fold `0`. -/
def testMetadata : Json :=
  Json.obj [
    ("configuration", Json.str "2d"),
    ("fold", Json.num 0),
    ("model_parameters", Json.obj [
      ("batch_size", Json.str "dynamic"),
      ("patch_size", Json.arr [Json.num 2]),
      ("spacing", Json.arr [Json.num 1]),
      ("normalization_schemes", Json.arr [Json.str "ZScoreNormalization"]),
      ("UNet_class_name", Json.str "PlainConvUNet"),
      ("UNet_base_num_features", Json.num 32),
      ("unet_max_num_features", Json.num 320),
      ("conv_kernel_sizes", Json.arr [Json.arr [Json.num 3]]),
      ("pool_op_kernel_sizes", Json.arr [Json.arr [Json.num 2]]),
      ("num_pool_per_axis", Json.arr [Json.num 5])]),
    ("dataset_parameters", Json.obj [
      ("dataset_name", Json.str "Dataset001_Test"),
      ("num_channels", Json.num 1),
      ("channels", Json.obj [
        ("0", Json.obj [("name", Json.str "CT"),
          ("foreground_properties", Json.num 5)])]),
      ("num_classes", Json.num 2),
      ("class_names", Json.obj [
        ("0", Json.str "background"), ("1", Json.str "tumor")])])]

/-! Error classification: no stage after the `batch_size` check can raise a
`ValueError`. -/

theorem channelEntry_error {fip : List (String × Json)} {k v : String}
    {e : Err} (h : channelEntry fip k v = .error e) : e = Err.keyError k := by
  unfold channelEntry at h
  split at h
  · simp only [Except.error.injEq] at h
    exact h.symm
  · simp at h

theorem mapChannels_error {fip : List (String × Json)} :
    ∀ {l : List (String × String)} {e : Err},
      mapChannels fip l = .error e → ∃ k, e = Err.keyError k := by
  intro l
  induction l with
  | nil => intro e h; simp [mapChannels] at h
  | cons p rest ih =>
    intro e h
    unfold mapChannels at h
    cases hce : channelEntry fip p.1 p.2 with
    | error e1 =>
      rw [hce] at h
      simp only [Except.error.injEq] at h
      exact ⟨p.1, h ▸ channelEntry_error hce⟩
    | ok q =>
      rw [hce] at h
      cases hmc : mapChannels fip rest with
      | error e2 =>
        rw [hmc] at h
        simp only [Except.error.injEq] at h
        exact h ▸ ih hmc
      | ok qs => rw [hmc] at h; simp at h

theorem buildConfigDict_error {c fold batch_size use_dynamic_axes config
    dataset_json fip dataset_name e}
    (h : buildConfigDict c fold batch_size use_dynamic_axes config
      dataset_json fip dataset_name = .error e) : ∃ k, e = Err.keyError k := by
  unfold buildConfigDict at h
  split at h
  · simp only [Except.error.injEq] at h
    next e1 heq => exact h ▸ mapChannels_error heq
  · simp at h

theorem exportAndVerify_error {env batch_size use_dynamic_axes dataset_name
    config dataset_json fip c output_name fold params curr_output_dir st e}
    (h : (exportAndVerify env batch_size use_dynamic_axes dataset_name config
      dataset_json fip c output_name fold params curr_output_dir st).2
        = some e) : e.isValue = false := by
  simp only [exportAndVerify] at h
  split at h
  · simp only [Option.some.injEq] at h
    rw [← h]; rfl
  · split at h
    · next e1 heq =>
      simp only [Option.some.injEq] at h
      obtain ⟨k, hk⟩ := buildConfigDict_error heq
      rw [← h, hk]; rfl
    · simp at h

theorem processFold_error {env output_dir batch_size use_dynamic_axes
    dataset_name config dataset_json fip c output_name fold params st e}
    (h : (processFold env output_dir batch_size use_dynamic_axes dataset_name
      config dataset_json fip c output_name fold params st).2 = some e) :
    e.isValue = false := by
  simp only [processFold] at h
  split at h
  · exact exportAndVerify_error h
  · split at h
    · simp only [Option.some.injEq] at h
      rw [← h]; rfl
    · exact exportAndVerify_error h

theorem foldLoop_error {env output_dir batch_size use_dynamic_axes
    dataset_name config dataset_json fip c output_name} :
    ∀ {pairs : List (FoldVal × Nat)} {st : St} {e : Err},
      (foldLoop env output_dir batch_size use_dynamic_axes dataset_name
        config dataset_json fip c output_name pairs st).2 = some e →
      e.isValue = false := by
  intro pairs
  induction pairs with
  | nil => intro st e h; simp [foldLoop] at h
  | cons p rest ih =>
    intro st e h
    unfold foldLoop at h
    split at h
    · next heq =>
      simp only [Option.some.injEq] at h
      exact processFold_error (h ▸ congrArg Prod.snd heq)
    · exact ih h

theorem checkpointLoop_error {env output_dir batch_size use_dynamic_axes
    dataset_name dataset_json fip c trainer_output_dir folds} :
    ∀ {pairs : List (String × String)} {st : St} {e : Err},
      (checkpointLoop env output_dir batch_size use_dynamic_axes dataset_name
        dataset_json fip c trainer_output_dir folds pairs st).2 = some e →
      e.isValue = false := by
  intro pairs
  induction pairs with
  | nil => intro st e h; simp [checkpointLoop] at h
  | cons p rest ih =>
    intro st e h
    unfold checkpointLoop at h
    split at h
    · next heq =>
      simp only [Option.some.injEq] at h
      have h2 := congrArg Prod.snd heq
      simp only [processCheckpoint] at h2
      exact foldLoop_error (h ▸ h2)
    · exact ih h

theorem isValue_false_of_not_valueError {e : Err}
    (h : ∀ m, e ≠ Err.valueError m) : e.isValue = false := by
  cases e with
  | valueError m => exact absurd rfl (h m)
  | runtimeError m => rfl
  | fileNotFoundError m => rfl
  | keyError m => rfl
  | onnxCheckError m => rfl

theorem processConfiguration_error_cond {env : Env} {a : Args}
    {use_dynamic_axes : Bool} {dataset_name c : String} {ns : NamesSource}
    {st : St} {e : Err}
    (hrd : ∀ d m, env.readDataset d ≠ .error (Err.valueError m))
    (hrp : ∀ d m, env.readPlans d ≠ .error (Err.valueError m))
    (h : (processConfiguration env a use_dynamic_axes dataset_name c ns
      st).2.2 = some e) : e.isValue = false := by
  simp only [processConfiguration] at h
  split at h
  · next e1 heq =>
    simp only [Option.some.injEq] at h
    subst h
    exact isValue_false_of_not_valueError
      (fun m hv => hrd _ m (hv ▸ heq))
  · split at h
    · next e1 heq =>
      simp only [Option.some.injEq] at h
      subst h
      exact isValue_false_of_not_valueError
        (fun m hv => hrp _ m (hv ▸ heq))
    · split at h
      · split at h
        · simp only [Option.some.injEq] at h
          rw [← h]; rfl
        · simp at h
      · exact checkpointLoop_error h

theorem configLoop_error_cond {env : Env} {a : Args}
    {use_dynamic_axes : Bool} {dataset_name : String}
    (hrd : ∀ d m, env.readDataset d ≠ .error (Err.valueError m))
    (hrp : ∀ d m, env.readPlans d ≠ .error (Err.valueError m)) :
    ∀ {configs : List String} {ns : NamesSource} {st : St} {e : Err},
      (configLoop env a use_dynamic_axes dataset_name configs ns st).2
        = some e → e.isValue = false := by
  intro configs
  induction configs with
  | nil => intro ns st e h; simp [configLoop] at h
  | cons c rest ih =>
    intro ns st e h
    unfold configLoop at h
    split at h
    · next heq =>
      simp only [Option.some.injEq] at h
      have h2 := congrArg (fun r => r.2.2) heq
      exact processConfiguration_error_cond hrd hrp (h ▸ h2)
    · exact ih h

/-- Claim C9, counterexample: the claimed equivalence is false.  With
`batch_size = 0` (non-negative) and a `dataset_name_or_id` the conversion
of line 44 cannot interpret, the run raises a `ValueError` coming from
`maybe_convert_to_dataset_name` — so a `ValueError` can be raised although
`batch_size` is not negative. -/
theorem valueError_without_negative_batch :
    (export_onnx_model envBadName argsBadName).2
      = some (Err.valueError
          "Could not convert not_a_dataset to a dataset name")
    ∧ ¬ argsBadName.batch_size < 0 :=
  ⟨rfl, by decide⟩

/-- Claim C9 (amended): when `batch_size` is negative, `export_onnx_model`
raises its own `ValueError` before any path resolution, model loading or
filesystem modification (untouched initial filesystem, empty trace);
conversely, when `batch_size` is non-negative, the validation itself
raises nothing: a `ValueError` can then only come from a callee — the
dataset-name conversion of line 44 or a JSON load — so if none of those
raises a `ValueError`, the run raises no `ValueError` at all. -/
theorem batch_size_validation (env : Env) (a : Args) :
    (a.batch_size < 0 →
      export_onnx_model env a
        = (⟨env.initFS, []⟩,
           some (Err.valueError "batch_size must be non-negative")))
    ∧ ((∀ m, env.convertDatasetName a.dataset_name_or_id
          ≠ .error (Err.valueError m)) →
       (∀ d m, env.readDataset d ≠ .error (Err.valueError m)) →
       (∀ d m, env.readPlans d ≠ .error (Err.valueError m)) →
       ¬ a.batch_size < 0 →
       ∀ m, (export_onnx_model env a).2 ≠ some (Err.valueError m)) := by
  constructor
  · intro hb
    simp [export_onnx_model, hb]
  · intro hconv hrd hrp hb m hm
    cases hcv : env.convertDatasetName a.dataset_name_or_id with
    | error e1 =>
      have h1 : (export_onnx_model env a).2 = some e1 := by
        simp [export_onnx_model, hb, hcv]
      rw [h1] at hm
      simp only [Option.some.injEq] at hm
      exact hconv m (hm ▸ hcv)
    | ok dsname =>
      have hrw : (export_onnx_model env a).2
          = (configLoop env a (a.batch_size == 0) dsname a.configurations
              (initialNames a.output_names a.save_checkpoints)
              ⟨env.initFS, []⟩).2 := by
        simp [export_onnx_model, hb, hcv]
      rw [hrw] at hm
      have hv := configLoop_error_cond hrd hrp hm
      simp [Err.isValue] at hv

/-- Claim C9 witness: at `batch_size = -1` the run returns the `ValueError`
with empty trace and untouched filesystem, and in the healthy world with
`batch_size = 0` no `ValueError` occurs. -/
theorem batch_size_validation_witness :
    (export_onnx_model testEnv argsNegBatch
      = (⟨testEnv.initFS, []⟩,
         some (Err.valueError "batch_size must be non-negative")))
    ∧ (∀ m, (export_onnx_model testEnv testArgs).2
        ≠ some (Err.valueError m)) :=
  ⟨(batch_size_validation testEnv argsNegBatch).1 (by decide),
   (batch_size_validation testEnv testArgs).2
     (fun _ h => Except.noConfusion h)
     (fun _ _ h => Except.noConfusion h)
     (fun _ _ h => Except.noConfusion h)
     (by decide)⟩

/-- Claim C1, behaviour of the code at the failing input: with
`strict := false` and the trained-model directory of the first requested
configuration missing, the run does NOT skip the configuration; it aborts
with the `FileNotFoundError` from `load_json(join(trainer_output_dir,
"dataset.json"))`, which line 50 executes before the `isdir` check of line
57. The final trace shows no skip message and no progress to the second
configuration. -/
theorem strict_false_missing_dir_raises :
    export_onnx_model envMissingDir argsSkip
      = (⟨⟨[]⟩, [Event.printMsg "Configuration 2d",
           Event.resolveOutputFolder "2d" "results/2d"]⟩,
         some (Err.fileNotFoundError "results/2d/dataset.json")) := by rfl

/-- Claim C2, behaviour of the code at the failing input: with two
configurations and the default `output_names` (a generator exhausted by the
zip of the first configuration), the run terminates without error, the first
configuration gets its artifact and `config.json`, but the second
fold directory of that configuration is never created and receives no output at
all. -/
theorem second_configuration_missing_outputs :
    (export_onnx_model testEnv argsTwoConfigs).2 = none
    ∧ (export_onnx_model testEnv argsTwoConfigs).1.fs.lookup "out/2d/fold_0"
        = some ["checkpoint_final.onnx", "config.json"]
    ∧ (export_onnx_model testEnv argsTwoConfigs).1.fs.lookup
        "out/3d_fullres/fold_0" = none := ⟨rfl, rfl, rfl⟩

/-- Claim C3: when the per-fold output directory already exists and holds
at least one entry, the per-fold step of `export_onnx_model` raises a
`RuntimeError` immediately; the filesystem is returned unchanged, so no
export artifact and no metadata file is written into that directory. -/
theorem nonempty_output_dir_raises (env : Env) (output_dir : String)
    (batch_size : Int) (use_dynamic_axes : Bool) (dataset_name : String)
    (config : ConfigurationManager) (dataset_json : DatasetJson)
    (fip : List (String × Json)) (c output_name : String) (fold : FoldVal)
    (params : Nat) (st : St) (entries : List String)
    (h1 : st.fs.lookup (foldOutputDir output_dir c fold) = some entries)
    (h2 : 0 < entries.length) :
    processFold env output_dir batch_size use_dynamic_axes dataset_name
        config dataset_json fip c output_name fold params st
      = (⟨st.fs, st.trace ++ [Event.loadStateDict fold params]⟩,
         some (Err.runtimeError
           ("Output directory " ++ foldOutputDir output_dir c fold
             ++ " is not empty"))) := by
  simp [processFold, St.emit, h1, h2]

/-- Claim C3 witness: a concrete non-empty fold directory makes the step
fail with the `RuntimeError` and leave the filesystem untouched. -/
theorem nonempty_output_dir_raises_witness :
    processFold testEnv "out" 0 true "Dataset001_Test" testConfigManager
        testDatasetJson [("0", Json.num 5)] "2d" "checkpoint_final.onnx"
        (FoldVal.num 0) 7 stNonempty
      = (⟨stNonempty.fs,
          stNonempty.trace ++ [Event.loadStateDict (FoldVal.num 0) 7]⟩,
         some (Err.runtimeError
           ("Output directory " ++ foldOutputDir "out" "2d" (FoldVal.num 0)
             ++ " is not empty"))) :=
  nonempty_output_dir_raises testEnv "out" 0 true "Dataset001_Test"
    testConfigManager testDatasetJson [("0", Json.num 5)] "2d"
    "checkpoint_final.onnx" (FoldVal.num 0) 7 stNonempty ["old.txt"] rfl
    (by decide)

/-- Claim C6: a failed numerical parity comparison is non-fatal: the
per-artifact pipeline prints a warning and finishes normally, the exported
artifact stays in the fold directory, the metadata file is still written,
and the step reports no error, so remaining folds and configurations keep
being processed. -/
theorem parity_failure_warns_and_continues (env : Env) (batch_size : Int)
    (use_dynamic_axes : Bool) (dataset_name : String)
    (config : ConfigurationManager) (dataset_json : DatasetJson)
    (fip : List (String × Json)) (c output_name : String) (fold : FoldVal)
    (params : Nat) (curr_output_dir : String) (st : St) (j : Json)
    (hcheck : env.onnxCheckOk (joinPath curr_output_dir output_name) = true)
    (hpar : env.allclose
        (env.runNetwork params
          (mkInput env use_dynamic_axes batch_size config))
        (env.ortRun (joinPath curr_output_dir output_name)
          (mkInput env use_dynamic_axes batch_size config)) = false)
    (hmeta : buildConfigDict c fold batch_size use_dynamic_axes config
        dataset_json fip dataset_name = .ok j) :
    exportAndVerify env batch_size use_dynamic_axes dataset_name config
        dataset_json fip c output_name fold params curr_output_dir st
      = (⟨(st.fs.addFile curr_output_dir output_name).addFile
            curr_output_dir "config.json",
          st.trace ++
            [Event.runTorch params
               (mkInput env use_dynamic_axes batch_size config),
             Event.onnxExportCall (joinPath curr_output_dir output_name)
               (mkInput env use_dynamic_axes batch_size config),
             Event.onnxLoadCall (joinPath curr_output_dir output_name),
             Event.checkModelCall (joinPath curr_output_dir output_name),
             Event.createSession (joinPath curr_output_dir output_name),
             Event.ortRunCall (joinPath curr_output_dir output_name)
               (mkInput env use_dynamic_axes batch_size config),
             Event.compareOutputs false,
             Event.printMsg "WARN: Differences found between torch and onnx",
             Event.printMsg "Export will continue, but please verify that your pipeline matches the original.",
             Event.printMsg ("Exported " ++ joinPath curr_output_dir output_name),
             Event.writeMetadata (joinPath curr_output_dir "config.json") j]⟩,
         none) := by
  simp [exportAndVerify, St.emit, hcheck, hpar, hmeta]

/-- Claim C6 witness: in the mismatching world the concrete pipeline step
succeeds, keeps the artifact, prints the warning and writes the metadata. -/
theorem parity_failure_warns_and_continues_witness :
    exportAndVerify envMismatch 0 true "Dataset001_Test" testConfigManager
        testDatasetJson [("0", Json.num 5)] "2d" "checkpoint_final.onnx"
        (FoldVal.num 0) 7 "out/2d/fold_0" stDirReady
      = (⟨(stDirReady.fs.addFile "out/2d/fold_0"
            "checkpoint_final.onnx").addFile "out/2d/fold_0" "config.json",
          stDirReady.trace ++
            [Event.runTorch 7 (mkInput envMismatch true 0 testConfigManager),
             Event.onnxExportCall (joinPath "out/2d/fold_0" "checkpoint_final.onnx")
               (mkInput envMismatch true 0 testConfigManager),
             Event.onnxLoadCall (joinPath "out/2d/fold_0" "checkpoint_final.onnx"),
             Event.checkModelCall (joinPath "out/2d/fold_0" "checkpoint_final.onnx"),
             Event.createSession (joinPath "out/2d/fold_0" "checkpoint_final.onnx"),
             Event.ortRunCall (joinPath "out/2d/fold_0" "checkpoint_final.onnx")
               (mkInput envMismatch true 0 testConfigManager),
             Event.compareOutputs false,
             Event.printMsg "WARN: Differences found between torch and onnx",
             Event.printMsg "Export will continue, but please verify that your pipeline matches the original.",
             Event.printMsg ("Exported " ++ joinPath "out/2d/fold_0" "checkpoint_final.onnx"),
             Event.writeMetadata (joinPath "out/2d/fold_0" "config.json")
               testMetadata]⟩,
         none) :=
  parity_failure_warns_and_continues envMismatch 0 true "Dataset001_Test"
    testConfigManager testDatasetJson [("0", Json.num 5)] "2d"
    "checkpoint_final.onnx" (FoldVal.num 0) 7 "out/2d/fold_0" stDirReady
    testMetadata rfl rfl rfl

/-! Trace structure of the per-artifact pipeline. -/

theorem exportAndVerify_trace_mono (env : Env) (batch_size : Int)
    (use_dynamic_axes : Bool) (dataset_name : String)
    (config : ConfigurationManager) (dataset_json : DatasetJson)
    (fip : List (String × Json)) (c output_name : String) (fold : FoldVal)
    (params : Nat) (curr_output_dir : String) (st : St) :
    ∃ ext, (exportAndVerify env batch_size use_dynamic_axes dataset_name
      config dataset_json fip c output_name fold params curr_output_dir
      st).1.trace = st.trace ++ ext := by
  cases hc : env.onnxCheckOk (joinPath curr_output_dir output_name) with
  | false =>
    refine ⟨[Event.runTorch params
        (mkInput env use_dynamic_axes batch_size config),
      Event.onnxExportCall (joinPath curr_output_dir output_name)
        (mkInput env use_dynamic_axes batch_size config),
      Event.onnxLoadCall (joinPath curr_output_dir output_name)], ?_⟩
    simp [exportAndVerify, St.emit, hc]
  | true =>
    cases hj : buildConfigDict c fold batch_size use_dynamic_axes config
        dataset_json fip dataset_name with
    | error e =>
      cases ha : env.allclose
          (env.runNetwork params
            (mkInput env use_dynamic_axes batch_size config))
          (env.ortRun (joinPath curr_output_dir output_name)
            (mkInput env use_dynamic_axes batch_size config)) with
      | true =>
        refine ⟨[Event.runTorch params
            (mkInput env use_dynamic_axes batch_size config),
          Event.onnxExportCall (joinPath curr_output_dir output_name)
            (mkInput env use_dynamic_axes batch_size config),
          Event.onnxLoadCall (joinPath curr_output_dir output_name),
          Event.checkModelCall (joinPath curr_output_dir output_name),
          Event.createSession (joinPath curr_output_dir output_name),
          Event.ortRunCall (joinPath curr_output_dir output_name)
            (mkInput env use_dynamic_axes batch_size config),
          Event.compareOutputs true,
          Event.printMsg
            ("Exported " ++ joinPath curr_output_dir output_name)], ?_⟩
        simp [exportAndVerify, St.emit, hc, hj, ha]
      | false =>
        refine ⟨[Event.runTorch params
            (mkInput env use_dynamic_axes batch_size config),
          Event.onnxExportCall (joinPath curr_output_dir output_name)
            (mkInput env use_dynamic_axes batch_size config),
          Event.onnxLoadCall (joinPath curr_output_dir output_name),
          Event.checkModelCall (joinPath curr_output_dir output_name),
          Event.createSession (joinPath curr_output_dir output_name),
          Event.ortRunCall (joinPath curr_output_dir output_name)
            (mkInput env use_dynamic_axes batch_size config),
          Event.compareOutputs false,
          Event.printMsg "WARN: Differences found between torch and onnx",
          Event.printMsg "Export will continue, but please verify that your pipeline matches the original.",
          Event.printMsg
            ("Exported " ++ joinPath curr_output_dir output_name)], ?_⟩
        simp [exportAndVerify, St.emit, hc, hj, ha]
    | ok j =>
      cases ha : env.allclose
          (env.runNetwork params
            (mkInput env use_dynamic_axes batch_size config))
          (env.ortRun (joinPath curr_output_dir output_name)
            (mkInput env use_dynamic_axes batch_size config)) with
      | true =>
        refine ⟨[Event.runTorch params
            (mkInput env use_dynamic_axes batch_size config),
          Event.onnxExportCall (joinPath curr_output_dir output_name)
            (mkInput env use_dynamic_axes batch_size config),
          Event.onnxLoadCall (joinPath curr_output_dir output_name),
          Event.checkModelCall (joinPath curr_output_dir output_name),
          Event.createSession (joinPath curr_output_dir output_name),
          Event.ortRunCall (joinPath curr_output_dir output_name)
            (mkInput env use_dynamic_axes batch_size config),
          Event.compareOutputs true,
          Event.printMsg
            ("Exported " ++ joinPath curr_output_dir output_name),
          Event.writeMetadata (joinPath curr_output_dir "config.json") j],
          ?_⟩
        simp [exportAndVerify, St.emit, hc, hj, ha]
      | false =>
        refine ⟨[Event.runTorch params
            (mkInput env use_dynamic_axes batch_size config),
          Event.onnxExportCall (joinPath curr_output_dir output_name)
            (mkInput env use_dynamic_axes batch_size config),
          Event.onnxLoadCall (joinPath curr_output_dir output_name),
          Event.checkModelCall (joinPath curr_output_dir output_name),
          Event.createSession (joinPath curr_output_dir output_name),
          Event.ortRunCall (joinPath curr_output_dir output_name)
            (mkInput env use_dynamic_axes batch_size config),
          Event.compareOutputs false,
          Event.printMsg "WARN: Differences found between torch and onnx",
          Event.printMsg "Export will continue, but please verify that your pipeline matches the original.",
          Event.printMsg
            ("Exported " ++ joinPath curr_output_dir output_name),
          Event.writeMetadata (joinPath curr_output_dir "config.json") j],
          ?_⟩
        simp [exportAndVerify, St.emit, hc, hj, ha]

theorem processFold_trace_mono (env : Env) (output_dir : String)
    (batch_size : Int) (use_dynamic_axes : Bool) (dataset_name : String)
    (config : ConfigurationManager) (dataset_json : DatasetJson)
    (fip : List (String × Json)) (c output_name : String) (fold : FoldVal)
    (params : Nat) (st : St) :
    ∃ ext, (processFold env output_dir batch_size use_dynamic_axes
      dataset_name config dataset_json fip c output_name fold params
      st).1.trace = st.trace ++ ext := by
  cases hl : st.fs.lookup (foldOutputDir output_dir c fold) with
  | none =>
    obtain ⟨ext, hext⟩ := exportAndVerify_trace_mono env batch_size
      use_dynamic_axes dataset_name config dataset_json fip c output_name
      fold params (foldOutputDir output_dir c fold)
      ⟨st.fs.mkdir (foldOutputDir output_dir c fold),
       (st.trace ++ [Event.loadStateDict fold params])
         ++ [Event.mkdirEvent (foldOutputDir output_dir c fold)]⟩
    refine ⟨[Event.loadStateDict fold params]
      ++ [Event.mkdirEvent (foldOutputDir output_dir c fold)] ++ ext, ?_⟩
    have hrw : processFold env output_dir batch_size use_dynamic_axes
        dataset_name config dataset_json fip c output_name fold params st
      = exportAndVerify env batch_size use_dynamic_axes dataset_name config
          dataset_json fip c output_name fold params
          (foldOutputDir output_dir c fold)
          ⟨st.fs.mkdir (foldOutputDir output_dir c fold),
           (st.trace ++ [Event.loadStateDict fold params])
             ++ [Event.mkdirEvent (foldOutputDir output_dir c fold)]⟩ := by
      simp [processFold, St.emit, hl]
    rw [hrw, hext]
    simp
  | some entries =>
    by_cases hpos : 0 < entries.length
    · refine ⟨[Event.loadStateDict fold params], ?_⟩
      simp [processFold, St.emit, hl, hpos]
    · obtain ⟨ext, hext⟩ := exportAndVerify_trace_mono env batch_size
        use_dynamic_axes dataset_name config dataset_json fip c output_name
        fold params (foldOutputDir output_dir c fold)
        ⟨st.fs, st.trace ++ [Event.loadStateDict fold params]⟩
      refine ⟨[Event.loadStateDict fold params] ++ ext, ?_⟩
      have hrw : processFold env output_dir batch_size use_dynamic_axes
          dataset_name config dataset_json fip c output_name fold params st
        = exportAndVerify env batch_size use_dynamic_axes dataset_name
            config dataset_json fip c output_name fold params
            (foldOutputDir output_dir c fold)
            ⟨st.fs, st.trace ++ [Event.loadStateDict fold params]⟩ := by
        simp [processFold, St.emit, hl, hpos]
      rw [hrw, hext]
      simp

theorem foldLoop_trace_mono (env : Env) (output_dir : String)
    (batch_size : Int) (use_dynamic_axes : Bool) (dataset_name : String)
    (config : ConfigurationManager) (dataset_json : DatasetJson)
    (fip : List (String × Json)) (c output_name : String) :
    ∀ (pairs : List (FoldVal × Nat)) (st : St),
      ∃ ext, (foldLoop env output_dir batch_size use_dynamic_axes
        dataset_name config dataset_json fip c output_name pairs
        st).1.trace = st.trace ++ ext := by
  intro pairs
  induction pairs with
  | nil => intro st; exact ⟨[], by simp [foldLoop]⟩
  | cons p rest ih =>
    intro st
    unfold foldLoop
    cases hpf : processFold env output_dir batch_size use_dynamic_axes
        dataset_name config dataset_json fip c output_name p.1 p.2 st with
    | mk st1 me =>
      have hm : st1.trace = (processFold env output_dir batch_size
          use_dynamic_axes dataset_name config dataset_json fip c
          output_name p.1 p.2 st).1.trace := by rw [hpf]
      obtain ⟨e1, he1⟩ := processFold_trace_mono env output_dir batch_size
        use_dynamic_axes dataset_name config dataset_json fip c output_name
        p.1 p.2 st
      cases me with
      | some e => exact ⟨e1, hm.trans he1⟩
      | none =>
        obtain ⟨e2, he2⟩ := ih st1
        refine ⟨e1 ++ e2, ?_⟩
        show (foldLoop env output_dir batch_size use_dynamic_axes
          dataset_name config dataset_json fip c output_name rest
          st1).1.trace = st.trace ++ (e1 ++ e2)
        rw [he2, hm, he1, List.append_assoc]

theorem checkpointLoop_trace_mono (env : Env) (output_dir : String)
    (batch_size : Int) (use_dynamic_axes : Bool) (dataset_name : String)
    (dataset_json : DatasetJson) (fip : List (String × Json)) (c : String)
    (trainer_output_dir : String) (folds : List FoldVal) :
    ∀ (pairs : List (String × String)) (st : St),
      ∃ ext, (checkpointLoop env output_dir batch_size use_dynamic_axes
        dataset_name dataset_json fip c trainer_output_dir folds pairs
        st).1.trace = st.trace ++ ext := by
  intro pairs
  induction pairs with
  | nil => intro st; exact ⟨[], by simp [checkpointLoop]⟩
  | cons p rest ih =>
    intro st
    unfold checkpointLoop
    cases hpc : processCheckpoint env output_dir batch_size use_dynamic_axes
        dataset_name dataset_json fip c trainer_output_dir folds p.1 p.2
        st with
    | mk st1 me =>
      have hm0 := congrArg (fun r => r.1.trace) hpc
      simp only [processCheckpoint] at hm0
      obtain ⟨e1, he1⟩ := foldLoop_trace_mono env output_dir batch_size
        use_dynamic_axes dataset_name
        (env.predictorData trainer_output_dir p.1).configuration_manager
        dataset_json fip c p.2
        (folds.zip (env.predictorData trainer_output_dir
          p.1).list_of_parameters)
        (st.emit (Event.predictorInit trainer_output_dir p.1))
      rw [he1] at hm0
      cases me with
      | some e =>
        refine ⟨[Event.predictorInit trainer_output_dir p.1] ++ e1,
          ?_⟩
        show st1.trace = st.trace
          ++ ([Event.predictorInit trainer_output_dir p.1] ++ e1)
        rw [← hm0]
        simp [St.emit]
      | none =>
        obtain ⟨e2, he2⟩ := ih st1
        refine ⟨[Event.predictorInit trainer_output_dir p.1]
          ++ e1 ++ e2, ?_⟩
        show (checkpointLoop env output_dir batch_size use_dynamic_axes
          dataset_name dataset_json fip c trainer_output_dir folds rest
          st1).1.trace = st.trace
            ++ ([Event.predictorInit trainer_output_dir p.1]
              ++ e1 ++ e2)
        rw [he2, ← hm0]
        simp [St.emit]

theorem exportAndVerify_success_trace {env : Env} {batch_size : Int}
    {use_dynamic_axes : Bool} {dataset_name : String}
    {config : ConfigurationManager} {dataset_json : DatasetJson}
    {fip : List (String × Json)} {c output_name : String} {fold : FoldVal}
    {params : Nat} {curr_output_dir : String} {st : St}
    (h : (exportAndVerify env batch_size use_dynamic_axes dataset_name
      config dataset_json fip c output_name fold params curr_output_dir
      st).2 = none) :
    ∃ (ok : Bool) (warn : List Event) (j : Json),
      (exportAndVerify env batch_size use_dynamic_axes dataset_name config
        dataset_json fip c output_name fold params curr_output_dir
        st).1.trace
      = st.trace ++
          [Event.runTorch params
             (mkInput env use_dynamic_axes batch_size config),
           Event.onnxExportCall (joinPath curr_output_dir output_name)
             (mkInput env use_dynamic_axes batch_size config),
           Event.onnxLoadCall (joinPath curr_output_dir output_name),
           Event.checkModelCall (joinPath curr_output_dir output_name),
           Event.createSession (joinPath curr_output_dir output_name),
           Event.ortRunCall (joinPath curr_output_dir output_name)
             (mkInput env use_dynamic_axes batch_size config),
           Event.compareOutputs ok]
        ++ warn
        ++ [Event.printMsg
              ("Exported " ++ joinPath curr_output_dir output_name),
            Event.writeMetadata (joinPath curr_output_dir "config.json")
              j] := by
  cases hc : env.onnxCheckOk (joinPath curr_output_dir output_name) with
  | false => exfalso; simp [exportAndVerify, St.emit, hc] at h
  | true =>
    cases hj : buildConfigDict c fold batch_size use_dynamic_axes config
        dataset_json fip dataset_name with
    | error e => exfalso; simp [exportAndVerify, St.emit, hc, hj] at h
    | ok j =>
      cases ha : env.allclose
          (env.runNetwork params
            (mkInput env use_dynamic_axes batch_size config))
          (env.ortRun (joinPath curr_output_dir output_name)
            (mkInput env use_dynamic_axes batch_size config)) with
      | true =>
        refine ⟨true, [], j, ?_⟩
        simp [exportAndVerify, St.emit, hc, hj, ha]
      | false =>
        refine ⟨false,
          [Event.printMsg "WARN: Differences found between torch and onnx",
           Event.printMsg "Export will continue, but please verify that your pipeline matches the original."],
          j, ?_⟩
        simp [exportAndVerify, St.emit, hc, hj, ha]

theorem processFold_success_trace {env : Env} {output_dir : String}
    {batch_size : Int} {use_dynamic_axes : Bool} {dataset_name : String}
    {config : ConfigurationManager} {dataset_json : DatasetJson}
    {fip : List (String × Json)} {c output_name : String} {fold : FoldVal}
    {params : Nat} {st : St}
    (h : (processFold env output_dir batch_size use_dynamic_axes
      dataset_name config dataset_json fip c output_name fold params
      st).2 = none) :
    ∃ (mk : List Event) (ok : Bool) (warn : List Event) (j : Json),
      (processFold env output_dir batch_size use_dynamic_axes dataset_name
        config dataset_json fip c output_name fold params st).1.trace
      = st.trace ++ [Event.loadStateDict fold params] ++ mk
        ++ [Event.runTorch params
              (mkInput env use_dynamic_axes batch_size config),
            Event.onnxExportCall
              (joinPath (foldOutputDir output_dir c fold) output_name)
              (mkInput env use_dynamic_axes batch_size config),
            Event.onnxLoadCall
              (joinPath (foldOutputDir output_dir c fold) output_name),
            Event.checkModelCall
              (joinPath (foldOutputDir output_dir c fold) output_name),
            Event.createSession
              (joinPath (foldOutputDir output_dir c fold) output_name),
            Event.ortRunCall
              (joinPath (foldOutputDir output_dir c fold) output_name)
              (mkInput env use_dynamic_axes batch_size config),
            Event.compareOutputs ok]
        ++ warn
        ++ [Event.printMsg ("Exported "
              ++ joinPath (foldOutputDir output_dir c fold) output_name),
            Event.writeMetadata
              (joinPath (foldOutputDir output_dir c fold) "config.json")
              j] := by
  cases hl : st.fs.lookup (foldOutputDir output_dir c fold) with
  | none =>
    have hrw : processFold env output_dir batch_size use_dynamic_axes
        dataset_name config dataset_json fip c output_name fold params st
      = exportAndVerify env batch_size use_dynamic_axes dataset_name config
          dataset_json fip c output_name fold params
          (foldOutputDir output_dir c fold)
          ⟨st.fs.mkdir (foldOutputDir output_dir c fold),
           (st.trace ++ [Event.loadStateDict fold params])
             ++ [Event.mkdirEvent (foldOutputDir output_dir c fold)]⟩ := by
      simp [processFold, St.emit, hl]
    rw [hrw] at h ⊢
    obtain ⟨ok, warn, j, htr⟩ := exportAndVerify_success_trace h
    refine ⟨[Event.mkdirEvent (foldOutputDir output_dir c fold)], ok, warn,
      j, ?_⟩
    rw [htr]
  | some entries =>
    by_cases hpos : 0 < entries.length
    · exfalso
      simp [processFold, St.emit, hl, hpos] at h
    · have hrw : processFold env output_dir batch_size use_dynamic_axes
          dataset_name config dataset_json fip c output_name fold params st
        = exportAndVerify env batch_size use_dynamic_axes dataset_name
            config dataset_json fip c output_name fold params
            (foldOutputDir output_dir c fold)
            ⟨st.fs, st.trace ++ [Event.loadStateDict fold params]⟩ := by
        simp [processFold, St.emit, hl, hpos]
      rw [hrw] at h ⊢
      obtain ⟨ok, warn, j, htr⟩ := exportAndVerify_success_trace h
      refine ⟨[], ok, warn, j, ?_⟩
      rw [htr]
      simp

theorem processConfiguration_trace_head {env : Env} {a : Args}
    {use_dynamic_axes : Bool} {dataset_name c : String} {ns : NamesSource}
    {st : St} :
    ∃ rest,
      (processConfiguration env a use_dynamic_axes dataset_name c ns
        st).1.trace
      = st.trace
        ++ [Event.printMsg ("Configuration " ++ c),
            Event.resolveOutputFolder c
              (env.getOutputFolder dataset_name a.trainer a.plans_identifier
                c)]
        ++ rest := by
  cases hd : env.readDataset
      (env.getOutputFolder dataset_name a.trainer a.plans_identifier c) with
  | error e1 =>
    exact ⟨[], by simp [processConfiguration, St.emit, hd]⟩
  | ok dsj =>
    cases hp : env.readPlans
        (env.getOutputFolder dataset_name a.trainer a.plans_identifier
          c) with
    | error e1 =>
      refine ⟨[Event.readDatasetJson (joinPath
        (env.getOutputFolder dataset_name a.trainer a.plans_identifier c)
        "dataset.json")], ?_⟩
      simp [processConfiguration, St.emit, hd, hp]
    | ok plans =>
      cases hi : env.isdir
          (env.getOutputFolder dataset_name a.trainer a.plans_identifier
            c) with
      | false =>
        cases hs : a.strict with
        | true =>
          refine ⟨[Event.readDatasetJson (joinPath
              (env.getOutputFolder dataset_name a.trainer a.plans_identifier
                c) "dataset.json"),
            Event.readPlansJson (joinPath
              (env.getOutputFolder dataset_name a.trainer a.plans_identifier
                c) "plans.json")], ?_⟩
          simp [processConfiguration, St.emit, hd, hp, hi, hs]
        | false =>
          refine ⟨[Event.readDatasetJson (joinPath
              (env.getOutputFolder dataset_name a.trainer a.plans_identifier
                c) "dataset.json"),
            Event.readPlansJson (joinPath
              (env.getOutputFolder dataset_name a.trainer a.plans_identifier
                c) "plans.json"),
            Event.printMsg
              ("Skipping configuration " ++ c ++ ", does not exist")], ?_⟩
          simp [processConfiguration, St.emit, hd, hp, hi, hs]
      | true =>
        obtain ⟨ext, hext⟩ := checkpointLoop_trace_mono env a.output_dir
          a.batch_size use_dynamic_axes dataset_name dsj
          plans.foreground_intensity_properties_per_channel c
          (env.getOutputFolder dataset_name a.trainer a.plans_identifier c)
          a.folds ((ns.zipCheckpoints a.save_checkpoints).1)
          ⟨st.fs,
           st.trace
           ++ [Event.printMsg ("Configuration " ++ c),
               Event.resolveOutputFolder c
                 (env.getOutputFolder dataset_name a.trainer
                   a.plans_identifier c),
               Event.readDatasetJson (joinPath
                 (env.getOutputFolder dataset_name a.trainer
                   a.plans_identifier c) "dataset.json"),
               Event.readPlansJson (joinPath
                 (env.getOutputFolder dataset_name a.trainer
                   a.plans_identifier c) "plans.json")]⟩
        refine ⟨[Event.readDatasetJson (joinPath
            (env.getOutputFolder dataset_name a.trainer a.plans_identifier
              c) "dataset.json"),
          Event.readPlansJson (joinPath
            (env.getOutputFolder dataset_name a.trainer a.plans_identifier
              c) "plans.json")] ++ ext, ?_⟩
        have hrw : (processConfiguration env a use_dynamic_axes dataset_name
            c ns st).1.trace
          = (checkpointLoop env a.output_dir a.batch_size use_dynamic_axes
              dataset_name dsj
              plans.foreground_intensity_properties_per_channel c
              (env.getOutputFolder dataset_name a.trainer a.plans_identifier
                c) a.folds (ns.zipCheckpoints a.save_checkpoints).1
              ⟨st.fs,
               st.trace
               ++ [Event.printMsg ("Configuration " ++ c),
                   Event.resolveOutputFolder c
                     (env.getOutputFolder dataset_name a.trainer
                       a.plans_identifier c),
                   Event.readDatasetJson (joinPath
                     (env.getOutputFolder dataset_name a.trainer
                       a.plans_identifier c) "dataset.json"),
                   Event.readPlansJson (joinPath
                     (env.getOutputFolder dataset_name a.trainer
                       a.plans_identifier c) "plans.json")]⟩).1.trace := by
          simp [processConfiguration, St.emit, hd, hp, hi]
        rw [hrw, hext]
        simp

/-- Claim C7: for every exported artifact the steps happen in source
order.  First conjunct: a successful per-fold step always produces, after
the weight loading (and optional directory creation), exactly the sequence
torch forward pass, onnx export, onnx reload, model check, session
creation, session run, output comparison, optional warning, and only then
the metadata write — so the metadata file is never written before the
artifact has been reloaded, run and compared.  Second conjunct: within a
configuration, path resolution and the dataset/plans reads precede
everything the checkpoint/fold loops do. -/
theorem export_steps_ordered (env : Env) (a : Args) (output_dir : String)
    (batch_size : Int) (use_dynamic_axes : Bool) (dataset_name c : String)
    (ns : NamesSource) (config : ConfigurationManager)
    (dataset_json : DatasetJson) (fip : List (String × Json))
    (output_name : String) (fold : FoldVal) (params : Nat) (st st2 : St)
    (h : (processFold env output_dir batch_size use_dynamic_axes
      dataset_name config dataset_json fip c output_name fold params
      st).2 = none) :
    (∃ (mk : List Event) (ok : Bool) (warn : List Event) (j : Json),
      (processFold env output_dir batch_size use_dynamic_axes dataset_name
        config dataset_json fip c output_name fold params st).1.trace
      = st.trace ++ [Event.loadStateDict fold params] ++ mk
        ++ [Event.runTorch params
              (mkInput env use_dynamic_axes batch_size config),
            Event.onnxExportCall
              (joinPath (foldOutputDir output_dir c fold) output_name)
              (mkInput env use_dynamic_axes batch_size config),
            Event.onnxLoadCall
              (joinPath (foldOutputDir output_dir c fold) output_name),
            Event.checkModelCall
              (joinPath (foldOutputDir output_dir c fold) output_name),
            Event.createSession
              (joinPath (foldOutputDir output_dir c fold) output_name),
            Event.ortRunCall
              (joinPath (foldOutputDir output_dir c fold) output_name)
              (mkInput env use_dynamic_axes batch_size config),
            Event.compareOutputs ok]
        ++ warn
        ++ [Event.printMsg ("Exported "
              ++ joinPath (foldOutputDir output_dir c fold) output_name),
            Event.writeMetadata
              (joinPath (foldOutputDir output_dir c fold) "config.json")
              j])
    ∧ (∃ rest,
        (processConfiguration env a use_dynamic_axes dataset_name c ns
          st2).1.trace
        = st2.trace
          ++ [Event.printMsg ("Configuration " ++ c),
              Event.resolveOutputFolder c
                (env.getOutputFolder dataset_name a.trainer
                  a.plans_identifier c)]
          ++ rest) :=
  ⟨processFold_success_trace h, processConfiguration_trace_head⟩

/-- Claim C7 witness: a concrete successful per-fold step, instantiating
the ordered trace shape. -/
theorem export_steps_ordered_witness :
    (∃ (mk : List Event) (ok : Bool) (warn : List Event) (j : Json),
      (processFold testEnv "out" 0 true "Dataset001_Test" testConfigManager
        testDatasetJson [("0", Json.num 5)] "2d" "checkpoint_final.onnx"
        (FoldVal.num 0) 7 ⟨⟨[]⟩, []⟩).1.trace
      = (⟨⟨[]⟩, []⟩ : St).trace
        ++ [Event.loadStateDict (FoldVal.num 0) 7] ++ mk
        ++ [Event.runTorch 7 (mkInput testEnv true 0 testConfigManager),
            Event.onnxExportCall
              (joinPath (foldOutputDir "out" "2d" (FoldVal.num 0))
                "checkpoint_final.onnx")
              (mkInput testEnv true 0 testConfigManager),
            Event.onnxLoadCall
              (joinPath (foldOutputDir "out" "2d" (FoldVal.num 0))
                "checkpoint_final.onnx"),
            Event.checkModelCall
              (joinPath (foldOutputDir "out" "2d" (FoldVal.num 0))
                "checkpoint_final.onnx"),
            Event.createSession
              (joinPath (foldOutputDir "out" "2d" (FoldVal.num 0))
                "checkpoint_final.onnx"),
            Event.ortRunCall
              (joinPath (foldOutputDir "out" "2d" (FoldVal.num 0))
                "checkpoint_final.onnx")
              (mkInput testEnv true 0 testConfigManager),
            Event.compareOutputs ok]
        ++ warn
        ++ [Event.printMsg ("Exported "
              ++ joinPath (foldOutputDir "out" "2d" (FoldVal.num 0))
                "checkpoint_final.onnx"),
            Event.writeMetadata
              (joinPath (foldOutputDir "out" "2d" (FoldVal.num 0))
                "config.json") j])
    ∧ (∃ rest,
        (processConfiguration testEnv testArgs true "Dataset001_Test" "2d"
          (initialNames none ["checkpoint_final.pth"]) ⟨⟨[]⟩, []⟩).1.trace
        = (⟨⟨[]⟩, []⟩ : St).trace
          ++ [Event.printMsg ("Configuration " ++ "2d"),
              Event.resolveOutputFolder "2d"
                (testEnv.getOutputFolder "Dataset001_Test" testArgs.trainer
                  testArgs.plans_identifier "2d")]
          ++ rest) :=
  export_steps_ordered testEnv testArgs "out" 0 true "Dataset001_Test" "2d"
    (initialNames none ["checkpoint_final.pth"]) testConfigManager
    testDatasetJson [("0", Json.num 5)] "checkpoint_final.onnx"
    (FoldVal.num 0) 7 ⟨⟨[]⟩, []⟩ ⟨⟨[]⟩, []⟩ rfl

/-- Claim C8: a successful per-fold step reloads the exported artifact
(onnx load), runs the onnx model checker on it, creates an inference
session from it, and runs that session on the very same random input that
was fed to the source torch model. -/
theorem artifact_reloaded_and_validated (env : Env) (output_dir : String)
    (batch_size : Int) (use_dynamic_axes : Bool) (dataset_name : String)
    (config : ConfigurationManager) (dataset_json : DatasetJson)
    (fip : List (String × Json)) (c output_name : String) (fold : FoldVal)
    (params : Nat) (st : St)
    (h : (processFold env output_dir batch_size use_dynamic_axes
      dataset_name config dataset_json fip c output_name fold params
      st).2 = none) :
    Event.onnxLoadCall
        (joinPath (foldOutputDir output_dir c fold) output_name)
      ∈ (processFold env output_dir batch_size use_dynamic_axes dataset_name
          config dataset_json fip c output_name fold params st).1.trace
    ∧ Event.checkModelCall
        (joinPath (foldOutputDir output_dir c fold) output_name)
      ∈ (processFold env output_dir batch_size use_dynamic_axes dataset_name
          config dataset_json fip c output_name fold params st).1.trace
    ∧ Event.createSession
        (joinPath (foldOutputDir output_dir c fold) output_name)
      ∈ (processFold env output_dir batch_size use_dynamic_axes dataset_name
          config dataset_json fip c output_name fold params st).1.trace
    ∧ Event.ortRunCall
        (joinPath (foldOutputDir output_dir c fold) output_name)
        (mkInput env use_dynamic_axes batch_size config)
      ∈ (processFold env output_dir batch_size use_dynamic_axes dataset_name
          config dataset_json fip c output_name fold params st).1.trace
    ∧ Event.runTorch params (mkInput env use_dynamic_axes batch_size config)
      ∈ (processFold env output_dir batch_size use_dynamic_axes dataset_name
          config dataset_json fip c output_name fold params st).1.trace := by
  obtain ⟨mk, ok, warn, j, htr⟩ := processFold_success_trace h
  rw [htr]
  refine ⟨?_, ?_, ?_, ?_, ?_⟩ <;> simp

/-- Claim C8 witness: the concrete successful per-fold step contains the
reload, check, session and run events on the same input. -/
theorem artifact_reloaded_and_validated_witness :
    Event.onnxLoadCall
        (joinPath (foldOutputDir "out" "2d" (FoldVal.num 0))
          "checkpoint_final.onnx")
      ∈ (processFold testEnv "out" 0 true "Dataset001_Test"
          testConfigManager testDatasetJson [("0", Json.num 5)] "2d"
          "checkpoint_final.onnx" (FoldVal.num 0) 7 ⟨⟨[]⟩, []⟩).1.trace
    ∧ Event.checkModelCall
        (joinPath (foldOutputDir "out" "2d" (FoldVal.num 0))
          "checkpoint_final.onnx")
      ∈ (processFold testEnv "out" 0 true "Dataset001_Test"
          testConfigManager testDatasetJson [("0", Json.num 5)] "2d"
          "checkpoint_final.onnx" (FoldVal.num 0) 7 ⟨⟨[]⟩, []⟩).1.trace
    ∧ Event.createSession
        (joinPath (foldOutputDir "out" "2d" (FoldVal.num 0))
          "checkpoint_final.onnx")
      ∈ (processFold testEnv "out" 0 true "Dataset001_Test"
          testConfigManager testDatasetJson [("0", Json.num 5)] "2d"
          "checkpoint_final.onnx" (FoldVal.num 0) 7 ⟨⟨[]⟩, []⟩).1.trace
    ∧ Event.ortRunCall
        (joinPath (foldOutputDir "out" "2d" (FoldVal.num 0))
          "checkpoint_final.onnx")
        (mkInput testEnv true 0 testConfigManager)
      ∈ (processFold testEnv "out" 0 true "Dataset001_Test"
          testConfigManager testDatasetJson [("0", Json.num 5)] "2d"
          "checkpoint_final.onnx" (FoldVal.num 0) 7 ⟨⟨[]⟩, []⟩).1.trace
    ∧ Event.runTorch 7 (mkInput testEnv true 0 testConfigManager)
      ∈ (processFold testEnv "out" 0 true "Dataset001_Test"
          testConfigManager testDatasetJson [("0", Json.num 5)] "2d"
          "checkpoint_final.onnx" (FoldVal.num 0) 7 ⟨⟨[]⟩, []⟩).1.trace :=
  artifact_reloaded_and_validated testEnv "out" 0 true "Dataset001_Test"
    testConfigManager testDatasetJson [("0", Json.num 5)] "2d"
    "checkpoint_final.onnx" (FoldVal.num 0) 7 ⟨⟨[]⟩, []⟩ rfl

/-! Shape of the metadata JSON. -/

theorem channelEntry_ok_shape {fip : List (String × Json)} {k v : String}
    {q : String × Json} (h : channelEntry fip k v = .ok q) :
    ∃ props, q = (k, Json.obj [("name", Json.str v),
      ("foreground_properties", props)]) := by
  unfold channelEntry at h
  split at h
  · simp at h
  · next props heq =>
    simp only [Except.ok.injEq] at h
    exact ⟨props, h.symm⟩

theorem mapChannels_ok_shape {fip : List (String × Json)} :
    ∀ {l : List (String × String)} {qs : List (String × Json)},
      mapChannels fip l = .ok qs →
      ∀ q ∈ qs, ∃ k v props,
        q = (k, Json.obj [("name", Json.str v),
          ("foreground_properties", props)]) := by
  intro l
  induction l with
  | nil =>
    intro qs h q hq
    simp only [mapChannels, Except.ok.injEq] at h
    subst h
    simp at hq
  | cons p rest ih =>
    intro qs h q hq
    unfold mapChannels at h
    cases hce : channelEntry fip p.1 p.2 with
    | error e => rw [hce] at h; simp at h
    | ok q1 =>
      rw [hce] at h
      cases hmc : mapChannels fip rest with
      | error e => rw [hmc] at h; simp at h
      | ok qs1 =>
        rw [hmc] at h
        simp only [Except.ok.injEq] at h
        subst h
        rcases List.mem_cons.mp hq with hq1 | hq1
        · obtain ⟨props, hps⟩ := channelEntry_ok_shape hce
          exact ⟨p.1, p.2, props, hq1.trans hps⟩
        · exact ih hmc q hq1

theorem buildConfigDict_keys {c : String} {fold : FoldVal}
    {batch_size : Int} {use_dynamic_axes : Bool}
    {config : ConfigurationManager} {dataset_json : DatasetJson}
    {fip : List (String × Json)} {dataset_name : String} {j : Json}
    (h : buildConfigDict c fold batch_size use_dynamic_axes config
      dataset_json fip dataset_name = .ok j) : metadataKeysOK j = true := by
  unfold buildConfigDict at h
  cases hmc : mapChannels fip dataset_json.channel_names with
  | error e => rw [hmc] at h; simp at h
  | ok chans =>
    rw [hmc] at h
    simp only [Except.ok.injEq] at h
    subst h
    simp [metadataKeysOK, Json.keys, Json.get, List.find?]
    intro a b hab
    obtain ⟨k, v, props, heq⟩ := mapChannels_ok_shape hmc (a, b) hab
    simp only [Prod.mk.injEq] at heq
    rw [heq.2]
    rfl

/-! Where write events can originate. -/

theorem exportAndVerify_events {env : Env} {batch_size : Int}
    {use_dynamic_axes : Bool} {dataset_name : String}
    {config : ConfigurationManager} {dataset_json : DatasetJson}
    {fip : List (String × Json)} {c output_name : String} {fold : FoldVal}
    {params : Nat} {curr_output_dir : String} {st : St} :
    ∀ e ∈ (exportAndVerify env batch_size use_dynamic_axes dataset_name
      config dataset_json fip c output_name fold params curr_output_dir
      st).1.trace,
      e ∈ st.trace ∨ writeFreeEvent e
        ∨ foldWriteEvent curr_output_dir output_name e := by
  intro e he
  cases hc : env.onnxCheckOk (joinPath curr_output_dir output_name) with
  | false =>
    simp [exportAndVerify, St.emit, hc] at he
    rcases he with he | rfl | rfl | rfl
    · exact Or.inl he
    · exact Or.inr (Or.inl trivial)
    · exact Or.inr (Or.inr rfl)
    · exact Or.inr (Or.inl trivial)
  | true =>
    cases hj : buildConfigDict c fold batch_size use_dynamic_axes config
        dataset_json fip dataset_name with
    | error e1 =>
      cases ha : env.allclose
          (env.runNetwork params
            (mkInput env use_dynamic_axes batch_size config))
          (env.ortRun (joinPath curr_output_dir output_name)
            (mkInput env use_dynamic_axes batch_size config)) with
      | true =>
        simp [exportAndVerify, St.emit, hc, hj, ha] at he
        rcases he with he | rfl | rfl | rfl | rfl | rfl | rfl | rfl | rfl
        · exact Or.inl he
        all_goals first
          | exact Or.inr (Or.inl trivial)
          | exact Or.inr (Or.inr rfl)
      | false =>
        simp [exportAndVerify, St.emit, hc, hj, ha] at he
        rcases he with
          he | rfl | rfl | rfl | rfl | rfl | rfl | rfl | rfl | rfl | rfl
        · exact Or.inl he
        all_goals first
          | exact Or.inr (Or.inl trivial)
          | exact Or.inr (Or.inr rfl)
    | ok j =>
      cases ha : env.allclose
          (env.runNetwork params
            (mkInput env use_dynamic_axes batch_size config))
          (env.ortRun (joinPath curr_output_dir output_name)
            (mkInput env use_dynamic_axes batch_size config)) with
      | true =>
        simp [exportAndVerify, St.emit, hc, hj, ha] at he
        rcases he with
          he | rfl | rfl | rfl | rfl | rfl | rfl | rfl | rfl | rfl
        · exact Or.inl he
        all_goals first
          | exact Or.inr (Or.inl trivial)
          | exact Or.inr (Or.inr rfl)
          | exact Or.inr (Or.inr ⟨rfl, buildConfigDict_keys hj⟩)
      | false =>
        simp [exportAndVerify, St.emit, hc, hj, ha] at he
        rcases he with
          he | rfl | rfl | rfl | rfl | rfl | rfl | rfl | rfl | rfl | rfl |
            rfl
        · exact Or.inl he
        all_goals first
          | exact Or.inr (Or.inl trivial)
          | exact Or.inr (Or.inr rfl)
          | exact Or.inr (Or.inr ⟨rfl, buildConfigDict_keys hj⟩)

theorem processFold_events {env : Env} {output_dir : String}
    {batch_size : Int} {use_dynamic_axes : Bool} {dataset_name : String}
    {config : ConfigurationManager} {dataset_json : DatasetJson}
    {fip : List (String × Json)} {c output_name : String} {fold : FoldVal}
    {params : Nat} {st : St} :
    ∀ e ∈ (processFold env output_dir batch_size use_dynamic_axes
      dataset_name config dataset_json fip c output_name fold params
      st).1.trace,
      e ∈ st.trace ∨ writeFreeEvent e
        ∨ foldWriteEvent (foldOutputDir output_dir c fold) output_name
            e := by
  intro e he
  cases hl : st.fs.lookup (foldOutputDir output_dir c fold) with
  | none =>
    have hrw : processFold env output_dir batch_size use_dynamic_axes
        dataset_name config dataset_json fip c output_name fold params st
      = exportAndVerify env batch_size use_dynamic_axes dataset_name config
          dataset_json fip c output_name fold params
          (foldOutputDir output_dir c fold)
          ⟨st.fs.mkdir (foldOutputDir output_dir c fold),
           (st.trace ++ [Event.loadStateDict fold params])
             ++ [Event.mkdirEvent (foldOutputDir output_dir c fold)]⟩ := by
      simp [processFold, St.emit, hl]
    rw [hrw] at he
    rcases exportAndVerify_events e he with h1 | h1 | h1
    · rcases List.mem_append.mp h1 with h2 | h2
      · rcases List.mem_append.mp h2 with h3 | h3
        · exact Or.inl h3
        · simp at h3
          subst h3
          exact Or.inr (Or.inl trivial)
      · simp at h2
        subst h2
        exact Or.inr (Or.inl trivial)
    · exact Or.inr (Or.inl h1)
    · exact Or.inr (Or.inr h1)
  | some entries =>
    by_cases hpos : 0 < entries.length
    · have htr : (processFold env output_dir batch_size use_dynamic_axes
          dataset_name config dataset_json fip c output_name fold params
          st).1.trace = st.trace ++ [Event.loadStateDict fold params] := by
        simp [processFold, St.emit, hl, hpos]
      rw [htr] at he
      rcases List.mem_append.mp he with h2 | h2
      · exact Or.inl h2
      · simp at h2
        subst h2
        exact Or.inr (Or.inl trivial)
    · have hrw : processFold env output_dir batch_size use_dynamic_axes
          dataset_name config dataset_json fip c output_name fold params st
        = exportAndVerify env batch_size use_dynamic_axes dataset_name
            config dataset_json fip c output_name fold params
            (foldOutputDir output_dir c fold)
            ⟨st.fs, st.trace ++ [Event.loadStateDict fold params]⟩ := by
        simp [processFold, St.emit, hl, hpos]
      rw [hrw] at he
      rcases exportAndVerify_events e he with h1 | h1 | h1
      · rcases List.mem_append.mp h1 with h2 | h2
        · exact Or.inl h2
        · simp at h2
          subst h2
          exact Or.inr (Or.inl trivial)
      · exact Or.inr (Or.inl h1)
      · exact Or.inr (Or.inr h1)

theorem foldLoop_events {env : Env} {output_dir : String}
    {batch_size : Int} {use_dynamic_axes : Bool} {dataset_name : String}
    {config : ConfigurationManager} {dataset_json : DatasetJson}
    {fip : List (String × Json)} {c output_name : String} :
    ∀ {pairs : List (FoldVal × Nat)} {st : St},
      ∀ e ∈ (foldLoop env output_dir batch_size use_dynamic_axes
        dataset_name config dataset_json fip c output_name pairs
        st).1.trace,
        e ∈ st.trace ∨ writeFreeEvent e
          ∨ ∃ fp ∈ pairs,
              foldWriteEvent (foldOutputDir output_dir c fp.1) output_name
                e := by
  intro pairs
  induction pairs with
  | nil => intro st e he; exact Or.inl he
  | cons p rest ih =>
    intro st e he
    unfold foldLoop at he
    cases hpf : processFold env output_dir batch_size use_dynamic_axes
        dataset_name config dataset_json fip c output_name p.1 p.2 st with
    | mk st1 me =>
      rw [hpf] at he
      have hst1 : st1 = (processFold env output_dir batch_size
          use_dynamic_axes dataset_name config dataset_json fip c
          output_name p.1 p.2 st).1 := by rw [hpf]
      cases me with
      | some err =>
        have he1 : e ∈ st1.trace := he
        rw [hst1] at he1
        rcases processFold_events e he1 with h1 | h1 | h1
        · exact Or.inl h1
        · exact Or.inr (Or.inl h1)
        · exact Or.inr (Or.inr ⟨p, List.mem_cons_self p rest, h1⟩)
      | none =>
        have he1 : e ∈ (foldLoop env output_dir batch_size use_dynamic_axes
            dataset_name config dataset_json fip c output_name rest
            st1).1.trace := he
        rcases ih e he1 with h1 | h1 | ⟨fp, hfp, hw⟩
        · rw [hst1] at h1
          rcases processFold_events e h1 with h2 | h2 | h2
          · exact Or.inl h2
          · exact Or.inr (Or.inl h2)
          · exact Or.inr (Or.inr ⟨p, List.mem_cons_self p rest, h2⟩)
        · exact Or.inr (Or.inl h1)
        · exact Or.inr (Or.inr ⟨fp, List.mem_cons_of_mem p hfp, hw⟩)

theorem processCheckpoint_events {env : Env} {output_dir : String}
    {batch_size : Int} {use_dynamic_axes : Bool} {dataset_name : String}
    {dataset_json : DatasetJson} {fip : List (String × Json)} {c : String}
    {trainer_output_dir : String} {folds : List FoldVal}
    {checkpoint_name output_name : String} {st : St} :
    ∀ e ∈ (processCheckpoint env output_dir batch_size use_dynamic_axes
      dataset_name dataset_json fip c trainer_output_dir folds
      checkpoint_name output_name st).1.trace,
      e ∈ st.trace ∨ writeFreeEvent e
        ∨ ∃ f ∈ folds,
            foldWriteEvent (foldOutputDir output_dir c f) output_name e := by
  intro e he
  simp only [processCheckpoint] at he
  rcases foldLoop_events e he with h1 | h1 | ⟨fp, hfp, hw⟩
  · simp only [St.emit] at h1
    rcases List.mem_append.mp h1 with h2 | h2
    · exact Or.inl h2
    · simp at h2
      subst h2
      exact Or.inr (Or.inl trivial)
  · exact Or.inr (Or.inl h1)
  · exact Or.inr (Or.inr ⟨fp.1, (List.of_mem_zip hfp).1, hw⟩)

theorem checkpointLoop_events {env : Env} {output_dir : String}
    {batch_size : Int} {use_dynamic_axes : Bool} {dataset_name : String}
    {dataset_json : DatasetJson} {fip : List (String × Json)} {c : String}
    {trainer_output_dir : String} {folds : List FoldVal} :
    ∀ {pairs : List (String × String)} {st : St},
      ∀ e ∈ (checkpointLoop env output_dir batch_size use_dynamic_axes
        dataset_name dataset_json fip c trainer_output_dir folds pairs
        st).1.trace,
        e ∈ st.trace ∨ writeFreeEvent e
          ∨ ∃ co ∈ pairs, ∃ f ∈ folds,
              foldWriteEvent (foldOutputDir output_dir c f) co.2 e := by
  intro pairs
  induction pairs with
  | nil => intro st e he; exact Or.inl he
  | cons p rest ih =>
    intro st e he
    unfold checkpointLoop at he
    cases hpc : processCheckpoint env output_dir batch_size use_dynamic_axes
        dataset_name dataset_json fip c trainer_output_dir folds p.1 p.2
        st with
    | mk st1 me =>
      rw [hpc] at he
      have hst1 : st1 = (processCheckpoint env output_dir batch_size
          use_dynamic_axes dataset_name dataset_json fip c
          trainer_output_dir folds p.1 p.2 st).1 := by rw [hpc]
      cases me with
      | some err =>
        have he1 : e ∈ st1.trace := he
        rw [hst1] at he1
        rcases processCheckpoint_events e he1 with h1 | h1 | ⟨f, hf, hw⟩
        · exact Or.inl h1
        · exact Or.inr (Or.inl h1)
        · exact Or.inr (Or.inr ⟨p, List.mem_cons_self p rest, f, hf, hw⟩)
      | none =>
        have he1 : e ∈ (checkpointLoop env output_dir batch_size
            use_dynamic_axes dataset_name dataset_json fip c
            trainer_output_dir folds rest st1).1.trace := he
        rcases ih e he1 with h1 | h1 | ⟨co, hco, f, hf, hw⟩
        · rw [hst1] at h1
          rcases processCheckpoint_events e h1 with h2 | h2 | ⟨f, hf, hw⟩
          · exact Or.inl h2
          · exact Or.inr (Or.inl h2)
          · exact Or.inr (Or.inr ⟨p, List.mem_cons_self p rest, f, hf, hw⟩)
        · exact Or.inr (Or.inl h1)
        · exact Or.inr (Or.inr ⟨co, List.mem_cons_of_mem p hco, f, hf, hw⟩)

theorem processConfiguration_events {env : Env} {a : Args}
    {use_dynamic_axes : Bool} {dataset_name c : String} {ns : NamesSource}
    {st : St} :
    ∀ e ∈ (processConfiguration env a use_dynamic_axes dataset_name c ns
      st).1.trace,
      e ∈ st.trace ∨ writeFreeEvent e
        ∨ ∃ f ∈ a.folds, ∃ name,
            foldWriteEvent (foldOutputDir a.output_dir c f) name e := by
  intro e he
  cases hd : env.readDataset
      (env.getOutputFolder dataset_name a.trainer a.plans_identifier c) with
  | error e1 =>
    simp [processConfiguration, St.emit, hd] at he
    rcases he with he | rfl | rfl
    · exact Or.inl he
    · exact Or.inr (Or.inl trivial)
    · exact Or.inr (Or.inl trivial)
  | ok dsj =>
    cases hp : env.readPlans
        (env.getOutputFolder dataset_name a.trainer a.plans_identifier
          c) with
    | error e1 =>
      simp [processConfiguration, St.emit, hd, hp] at he
      rcases he with he | rfl | rfl | rfl
      · exact Or.inl he
      all_goals exact Or.inr (Or.inl trivial)
    | ok plans =>
      cases hi : env.isdir
          (env.getOutputFolder dataset_name a.trainer a.plans_identifier
            c) with
      | false =>
        cases hs : a.strict with
        | true =>
          simp [processConfiguration, St.emit, hd, hp, hi, hs] at he
          rcases he with he | rfl | rfl | rfl | rfl
          · exact Or.inl he
          all_goals exact Or.inr (Or.inl trivial)
        | false =>
          simp [processConfiguration, St.emit, hd, hp, hi, hs] at he
          rcases he with he | rfl | rfl | rfl | rfl | rfl
          · exact Or.inl he
          all_goals exact Or.inr (Or.inl trivial)
      | true =>
        have hrw : (processConfiguration env a use_dynamic_axes dataset_name
            c ns st).1
          = (checkpointLoop env a.output_dir a.batch_size use_dynamic_axes
              dataset_name dsj
              plans.foreground_intensity_properties_per_channel c
              (env.getOutputFolder dataset_name a.trainer a.plans_identifier
                c) a.folds (ns.zipCheckpoints a.save_checkpoints).1
              ⟨st.fs,
               st.trace
               ++ [Event.printMsg ("Configuration " ++ c),
                   Event.resolveOutputFolder c
                     (env.getOutputFolder dataset_name a.trainer
                       a.plans_identifier c),
                   Event.readDatasetJson (joinPath
                     (env.getOutputFolder dataset_name a.trainer
                       a.plans_identifier c) "dataset.json"),
                   Event.readPlansJson (joinPath
                     (env.getOutputFolder dataset_name a.trainer
                       a.plans_identifier c) "plans.json")]⟩).1 := by
          simp [processConfiguration, St.emit, hd, hp, hi]
        rw [hrw] at he
        rcases checkpointLoop_events e he with h1 | h1 | ⟨co, hco, f, hf, hw⟩
        · rcases List.mem_append.mp h1 with h2 | h2
          · exact Or.inl h2
          · simp at h2
            rcases h2 with rfl | rfl | rfl | rfl
            all_goals exact Or.inr (Or.inl trivial)
        · exact Or.inr (Or.inl h1)
        · exact Or.inr (Or.inr ⟨f, hf, co.2, hw⟩)

theorem configLoop_events {env : Env} {a : Args} {use_dynamic_axes : Bool}
    {dataset_name : String} :
    ∀ {configs : List String} {ns : NamesSource} {st : St},
      ∀ e ∈ (configLoop env a use_dynamic_axes dataset_name configs ns
        st).1.trace,
        e ∈ st.trace ∨ writeFreeEvent e
          ∨ ∃ c ∈ configs, ∃ f ∈ a.folds, ∃ name,
              foldWriteEvent (foldOutputDir a.output_dir c f) name e := by
  intro configs
  induction configs with
  | nil => intro ns st e he; exact Or.inl he
  | cons c rest ih =>
    intro ns st e he
    unfold configLoop at he
    cases hpc : processConfiguration env a use_dynamic_axes dataset_name c
        ns st with
    | mk st1 r =>
      rw [hpc] at he
      have hst1 : st1 = (processConfiguration env a use_dynamic_axes
          dataset_name c ns st).1 := by rw [hpc]
      cases hr : r.2 with
      | some err =>
        have he1 : e ∈ st1.trace := by
          rw [← Prod.mk.eta (p := r), hr] at he
          exact he
        rw [hst1] at he1
        rcases processConfiguration_events e he1 with h1 | h1 | ⟨f, hf, nm, hw⟩
        · exact Or.inl h1
        · exact Or.inr (Or.inl h1)
        · exact Or.inr (Or.inr ⟨c, List.mem_cons_self c rest, f, hf, nm, hw⟩)
      | none =>
        have he1 : e ∈ (configLoop env a use_dynamic_axes dataset_name rest
            r.1 st1).1.trace := by
          rw [← Prod.mk.eta (p := r), hr] at he
          exact he
        rcases ih e he1 with h1 | h1 | ⟨c1, hc1, f, hf, nm, hw⟩
        · rw [hst1] at h1
          rcases processConfiguration_events e h1 with h2 | h2 | ⟨f, hf, nm, hw⟩
          · exact Or.inl h2
          · exact Or.inr (Or.inl h2)
          · exact Or.inr (Or.inr
              ⟨c, List.mem_cons_self c rest, f, hf, nm, hw⟩)
        · exact Or.inr (Or.inl h1)
        · exact Or.inr (Or.inr
            ⟨c1, List.mem_cons_of_mem c hc1, f, hf, nm, hw⟩)

theorem export_events {env : Env} {a : Args} :
    ∀ e ∈ (export_onnx_model env a).1.trace,
      writeFreeEvent e
        ∨ ∃ c ∈ a.configurations, ∃ f ∈ a.folds, ∃ name,
            foldWriteEvent (foldOutputDir a.output_dir c f) name e := by
  intro e he
  by_cases hb : a.batch_size < 0
  · simp [export_onnx_model, hb] at he
  · cases hcv : env.convertDatasetName a.dataset_name_or_id with
    | error e1 => simp [export_onnx_model, hb, hcv] at he
    | ok dsname =>
      have hrw : (export_onnx_model env a).1
        = (configLoop env a (a.batch_size == 0) dsname a.configurations
            (initialNames a.output_names a.save_checkpoints)
            ⟨env.initFS, []⟩).1 := by
        simp [export_onnx_model, hb, hcv]
      rw [hrw] at he
      rcases configLoop_events e he with h1 | h1 | h1
      · simp at h1
      · exact Or.inl h1
      · exact Or.inr h1

/-- Claim C4: every artifact written by the export and every metadata file
lands in `output_dir/c/fold_{f}` for some requested configuration `c` and
requested fold `f`; the directory naming follows the configuration/fold
scheme. -/
theorem outputs_in_fold_directories (env : Env) (a : Args) :
    (∀ p t, Event.onnxExportCall p t ∈ (export_onnx_model env a).1.trace →
      ∃ c ∈ a.configurations, ∃ f ∈ a.folds, ∃ name,
        p = joinPath (foldOutputDir a.output_dir c f) name)
    ∧ (∀ p j, Event.writeMetadata p j ∈ (export_onnx_model env a).1.trace →
      ∃ c ∈ a.configurations, ∃ f ∈ a.folds,
        p = joinPath (foldOutputDir a.output_dir c f) "config.json") := by
  constructor
  · intro p t hm
    rcases export_events _ hm with h1 | ⟨c, hc, f, hf, name, hw⟩
    · exact absurd h1 (by simp [writeFreeEvent])
    · exact ⟨c, hc, f, hf, name, hw⟩
  · intro p j hm
    rcases export_events _ hm with h1 | ⟨c, hc, f, hf, name, hw⟩
    · exact absurd h1 (by simp [writeFreeEvent])
    · exact ⟨c, hc, f, hf, hw.1⟩

/-- Claim C4 witness: the artifact path of the concrete run decomposes into the
configuration/fold directory scheme. -/
theorem outputs_in_fold_directories_witness :
    ∃ c ∈ testArgs.configurations, ∃ f ∈ testArgs.folds, ∃ name,
      "out/2d/fold_0/checkpoint_final.onnx"
        = joinPath (foldOutputDir testArgs.output_dir c f) name :=
  (outputs_in_fold_directories testEnv testArgs).1
    "out/2d/fold_0/checkpoint_final.onnx"
    (mkInput testEnv true 0 testConfigManager)
    (by exact .tail _ (.tail _ (.tail _ (.tail _ (.tail _ (.tail _
      (.tail _ (.tail _ (.head _)))))))))

/-- Claim C5: every metadata file the export writes is a JSON object with
all the documented keys: configuration, fold, the model parameter group
(batch size, patch size, spacing, normalization schemes, UNet class name,
base and max feature counts, convolution and pooling kernel sizes, pools
per axis) and the dataset parameter group (dataset name, channel count,
per-channel name and foreground intensity properties, class count, class
names). -/
theorem metadata_has_documented_keys (env : Env) (a : Args) :
    ∀ p j, Event.writeMetadata p j ∈ (export_onnx_model env a).1.trace →
      metadataKeysOK j = true := by
  intro p j hm
  rcases export_events _ hm with h1 | ⟨c, hc, f, hf, name, hw⟩
  · exact absurd h1 (by simp [writeFreeEvent])
  · exact hw.2

/-- Claim C5 witness: the metadata file of the concrete run carries all
documented keys. -/
theorem metadata_has_documented_keys_witness :
    metadataKeysOK testMetadata = true :=
  metadata_has_documented_keys testEnv testArgs "out/2d/fold_0/config.json"
    testMetadata
    (by exact .tail _ (.tail _ (.tail _ (.tail _ (.tail _ (.tail _
      (.tail _ (.tail _ (.tail _ (.tail _ (.tail _ (.tail _ (.tail _
      (.tail _ (.tail _ (.head _))))))))))))))))

theorem zip_map_defaultName :
    ∀ (l : List String), ∀ p ∈ l.zip (l.map defaultName),
      p.2 = defaultName p.1 := by
  intro l
  induction l with
  | nil => intro p hp; simp at hp
  | cons a t ih =>
    intro p hp
    rw [List.map_cons, List.zip_cons_cons] at hp
    rcases List.mem_cons.mp hp with rfl | hp2
    · rfl
    · exact ih p hp2

/-- Claim C10: when `output_names` is not provided (None or empty), the
names source becomes the generated sequence of default names; every
checkpoint/output-name pair the `zip` ever produces pairs a checkpoint
with its default name (the generated list is either still the full default
list or already exhausted, and the zip preserves this); and the default
name drops the last four characters of the checkpoint filename and appends
`.onnx`, so `checkpoint_final.pth` becomes `checkpoint_final.onnx`. -/
theorem default_output_names (save_checkpoints : List String)
    (output_names : Option (List String))
    (h : output_names = none ∨ output_names = some []) :
    (initialNames output_names save_checkpoints
      = .generated (save_checkpoints.map defaultName))
    ∧ (∀ rem, (rem = save_checkpoints.map defaultName ∨ rem = []) →
        (∀ p ∈ ((NamesSource.generated rem).zipCheckpoints
            save_checkpoints).1, p.2 = defaultName p.1)
        ∧ (∃ rem2, ((NamesSource.generated rem).zipCheckpoints
            save_checkpoints).2 = .generated rem2
            ∧ (rem2 = save_checkpoints.map defaultName ∨ rem2 = [])))
    ∧ defaultName "checkpoint_final.pth" = "checkpoint_final.onnx" := by
  refine ⟨?_, ?_, rfl⟩
  · rcases h with rfl | rfl
    · rfl
    · simp [initialNames]
  · intro rem hrem
    rcases hrem with rfl | rfl
    · constructor
      · intro p hp
        exact zip_map_defaultName save_checkpoints p hp
      · refine ⟨[], ?_, Or.inr rfl⟩
        simp only [NamesSource.zipCheckpoints]
        rw [← List.length_map save_checkpoints defaultName,
          List.drop_length]
    · constructor
      · intro p hp
        simp [NamesSource.zipCheckpoints] at hp
      · exact ⟨[], by simp [NamesSource.zipCheckpoints], Or.inr rfl⟩

/-- Claim C10 witness: with `output_names = None` the names source is the
generated default list, and the default name of `checkpoint_final.pth` is
`checkpoint_final.onnx`. -/
theorem default_output_names_witness :
    (initialNames none ["checkpoint_final.pth"]
      = .generated (["checkpoint_final.pth"].map defaultName))
    ∧ defaultName "checkpoint_final.pth" = "checkpoint_final.onnx" :=
  ⟨(default_output_names ["checkpoint_final.pth"] none (Or.inl rfl)).1,
   (default_output_names ["checkpoint_final.pth"] none (Or.inl rfl)).2.2⟩

end OnnxExport
